import Mathlib

/-!
Verification of the OptimusCredit financial-analysis core.

This file gives a shallow embedding, over `ℚ`, of the Excel-extraction and
financial-ratio/compliance engine of the repository:

* `FinancialCalculator` (calculateRatios, calculateScore, scoreRatio,
  generateInsights, generateRecommendations, getLatestYearKey,
  calculateAnalysis, checkBceaoCompliance, evaluateCompliance) from
  `src/App.tsx`;
* `ExcelProcessor` (cell mappings, getCellValue, parseNumericValue,
  extractDataFromOhadaTemplate, calculateDerivedFields, processWorksheet,
  processExcelFile) from the excel-processing service.

JavaScript objects are modelled as association lists in insertion order
(`objGet` is property read, `objSet` is property assignment overwriting the
first occurrence of the key, which for duplicate-free lists is exactly the
JS object semantics).  JS numbers are idealized as rationals.  Free-text
fields of result records (descriptions, expected impacts) that no property
depends on are omitted from the record models and noted at each spot.
-/

attribute [local semireducible] Rat.add Rat.sub Rat.mul Rat.inv

/-- Property read on a JS object, modelled as first-match lookup in an
association list. -/
def objGet {α : Type} : List (String × α) → String → Option α
  | [], _ => none
  | p :: rest, k => if p.1 = k then some p.2 else objGet rest k

/-- Property write on a JS object: overwrite the first binding of the key if
present, otherwise append a new binding (JS objects preserve insertion
order). -/
def objSet {α : Type} : List (String × α) → String → α → List (String × α)
  | [], k, v => [(k, v)]
  | p :: rest, k, v => if p.1 = k then (k, v) :: rest else p :: objSet rest k v

/-- Stable sort modelling `Array.prototype.sort` (ECMAScript sort is stable):
insert each element after all already-placed elements it does not strictly
precede. -/
def insertSorted {α : Type} (le : α → α → Bool) (a : α) : List α → List α
  | [] => [a]
  | b :: bs => if le b a then b :: insertSorted le a bs else a :: b :: bs

/-- Stable sort of a list by a boolean comparator (models `Array.sort`). -/
def sortJs {α : Type} (le : α → α → Bool) (l : List α) : List α :=
  l.foldl (fun acc x => insertSorted le x acc) []

/-- Lexicographic comparison of char lists by code point: the order the
default `Array.sort` string comparator uses (JS compares UTF-16 units,
which agrees with code points on the ASCII year keys sorted here). -/
def charListLe : List Char → List Char → Bool
  | [], _ => true
  | _ :: _, [] => false
  | a :: as, b :: bs =>
      if a.toNat < b.toNat then true
      else if b.toNat < a.toNat then false
      else charListLe as bs

/-- The default `Array.sort` string comparator as a boolean order. -/
def strLe (a b : String) : Bool := charListLe a.data b.data

/-- The JS expression `x || y` on numbers: `x` unless `x` is falsy (absent or
zero), in which case `y`. -/
def jsOrQ (x : Option ℚ) (y : ℚ) : ℚ :=
  match x with
  | some v => if v = 0 then y else v
  | none => y

/-- Math.round: JS rounds half-up, i.e. `⌊x + 1/2⌋`. -/
def jsRound (q : ℚ) : ℤ := ⌊q + 1/2⌋

/-- A raw spreadsheet cell value: a number or a string.  An empty-string
cell is treated as a blank by `getCellValue`. -/
inductive CellValue where
  | num (q : ℚ)
  | str (s : String)
deriving DecidableEq, Repr

/-- Digits of a char list interpreted as a natural number accumulator. -/
def digitsVal : List Char → ℕ → ℕ
  | [], acc => acc
  | c :: rest, acc =>
      if c.isDigit then digitsVal rest (acc * 10 + (c.toNat - 48)) else acc

/-- Unsigned part of JS `parseFloat` restricted to the alphabet
`[0-9.-]` that `parseNumericValue` feeds it (so no exponent or infinity
forms can occur): longest prefix `digits [ "." digits ]`; `none` models
`NaN` (no digit consumed). -/
def parseFloatUnsigned (s : List Char) : Option ℚ :=
  let intPart := s.takeWhile Char.isDigit
  let rest := s.drop intPart.length
  let fracPart :=
    match rest with
    | '.' :: r => r.takeWhile Char.isDigit
    | _ => []
  if intPart.isEmpty ∧ fracPart.isEmpty then none
  else
    some ((digitsVal intPart 0 : ℚ) +
      (digitsVal fracPart 0 : ℚ) / ((10 : ℚ) ^ fracPart.length))

/-- JS `parseFloat` on the cleaned strings produced by `parseNumericValue`
(which contain only digits, dots and minus signs): optional sign, then the
longest valid numeric prefix; `none` models `NaN`. -/
def jsParseFloat (s : List Char) : Option ℚ :=
  match s with
  | '-' :: rest => (parseFloatUnsigned rest).map (fun q => -q)
  | '+' :: rest => parseFloatUnsigned rest
  | _ => parseFloatUnsigned s

/-- ExcelProcessor.parseNumericValue: null/undefined/empty-string → 0;
numbers unchanged; strings are cleaned (currency symbols removed, whitespace
removed, every comma turned into a dot, then every character other than
digits, dots and minus removed) and fed to `parseFloat`; `NaN` → 0. -/
def parseNumericValue (value : Option CellValue) : ℚ :=
  match value with
  | none => 0
  | some (.num q) => q
  | some (.str s) =>
      if s = "" then 0
      else
        let noCurrency := s.data.filter (fun c => !(["€", "$", "£", "¥", "₹", "₽"].any (fun t => t.data = [c])))
        let noSpace := noCurrency.filter (fun c => !c.isWhitespace)
        let commaToDot := noSpace.map (fun c => if c = ',' then '.' else c)
        let cleaned := commaToDot.filter (fun c => c.isDigit || c = '.' || c = '-')
        match jsParseFloat cleaned with
        | some q => q
        | none => 0

/-! ## FinancialCalculator: data model -/

/-- FinancialData: an open string-keyed record of numeric statement fields,
in insertion order (src/App.tsx, types). -/
abbrev FinancialData := List (String × ℚ)

/-- FinancialRatios: an open string-keyed record of computed ratios. -/
abbrev FinancialRatios := List (String × ℚ)

/-- One year record of a MultiyearData entry. -/
structure YearData where
  year : ℤ
  data : FinancialData
deriving DecidableEq, Repr

/-- MultiyearData: relative year key ("N", "N-1", ...) to YearData, in
insertion order. -/
abbrev MultiyearData := List (String × YearData)

/-- Truthiness of a numeric JS object field: present and nonzero
(`data[k]` used as a condition). -/
def truthy (d : List (String × ℚ)) (k : String) : Bool :=
  match objGet d k with
  | some v => decide (v ≠ 0)
  | none => false

/-- Numeric read of a field, `0` when absent (only used under a `truthy`
guard, mirroring `Number(data[k])` in the source). -/
def getQ (d : List (String × ℚ)) (k : String) : ℚ :=
  (objGet d k).getD 0

/-! ## FinancialCalculator.calculateRatios

Each conditional below mirrors one `if (data[...] && ...) ratios.x = ...`
assignment of the source, in source order; the fifteen assigned keys are
pairwise distinct, so appending conditional singletons builds exactly the
JS object in its insertion order. -/

/-- FinancialCalculator.calculateRatios from src/App.tsx. -/
def calculateRatios (data : FinancialData) : FinancialRatios :=
  (if truthy data "total_actif_circulant" && truthy data "tresorerie_actif" && truthy data "total_dettes" then
    [("ratio_liquidite_generale",
      (getQ data "total_actif_circulant" + getQ data "tresorerie_actif") / getQ data "total_dettes")] else []) ++
  (if truthy data "tresorerie_actif" && truthy data "total_dettes" then
    [("ratio_liquidite_immediate", getQ data "tresorerie_actif" / getQ data "total_dettes")] else []) ++
  (if truthy data "capitaux_propres" && truthy data "total_actif" then
    [("ratio_autonomie_financiere", getQ data "capitaux_propres" / getQ data "total_actif" * 100)] else []) ++
  (if truthy data "total_dettes" && truthy data "total_actif" then
    [("ratio_endettement", getQ data "total_dettes" / getQ data "total_actif" * 100)] else []) ++
  (if truthy data "dettes_financieres" && truthy data "excedent_brut_exploitation" then
    [("ratio_couverture_dettes", getQ data "excedent_brut_exploitation" / getQ data "dettes_financieres")] else []) ++
  (if truthy data "resultat_net" && truthy data "capitaux_propres" then
    [("roe", getQ data "resultat_net" / getQ data "capitaux_propres" * 100)] else []) ++
  (if truthy data "resultat_net" && truthy data "total_actif" then
    [("roa", getQ data "resultat_net" / getQ data "total_actif" * 100)] else []) ++
  (if truthy data "resultat_net" && truthy data "chiffre_affaires" then
    [("marge_nette", getQ data "resultat_net" / getQ data "chiffre_affaires" * 100)] else []) ++
  (if truthy data "marge_commerciale" && truthy data "chiffre_affaires" then
    [("marge_brute", getQ data "marge_commerciale" / getQ data "chiffre_affaires" * 100)] else []) ++
  (if truthy data "chiffre_affaires" && truthy data "total_actif" then
    [("rotation_actif", getQ data "chiffre_affaires" / getQ data "total_actif")] else []) ++
  (if truthy data "chiffre_affaires" && truthy data "total_actif_circulant" then
    [("rotation_stocks", getQ data "chiffre_affaires" / getQ data "total_actif_circulant")] else []) ++
  (if truthy data "total_actif_circulant" && truthy data "total_dettes" then
    [("working_capital", getQ data "total_actif_circulant" - getQ data "total_dettes")] else []) ++
  (if truthy data "capitaux_propres" && truthy data "total_actif_immobilise" then
    [("ratio_financement_stable", getQ data "capitaux_propres" / getQ data "total_actif_immobilise")] else []) ++
  (if truthy data "excedent_brut_exploitation" && truthy data "chiffre_affaires" then
    [("marge_ebe", getQ data "excedent_brut_exploitation" / getQ data "chiffre_affaires" * 100)] else []) ++
  (if truthy data "valeur_ajoutee" && truthy data "chiffre_affaires" then
    [("taux_valeur_ajoutee", getQ data "valeur_ajoutee" / getQ data "chiffre_affaires" * 100)] else [])

/-! ## Norm tables and compliance -/

/-- A norm entry: at most one of min/max set, plus an optional optimal. -/
structure NormEntry where
  min : Option ℚ := none
  max : Option ℚ := none
  optimal : Option ℚ := none
deriving DecidableEq, Repr

/-- BCEAO_NORMS from src/App.tsx (ratio key to norm, source order). -/
def BCEAO_NORMS : List (String × NormEntry) := [
  ("ratio_liquidite_generale",   { min := some (6/5),  optimal := some 2 }),
  ("ratio_liquidite_reduite",    { min := some 1,      optimal := some (3/2) }),
  ("ratio_liquidite_immediate",  { min := some (3/10), optimal := some (4/5) }),
  ("ratio_autonomie_financiere", { min := some 20,     optimal := some 40 }),
  ("ratio_endettement",          { max := some 70,     optimal := some 50 }),
  ("ratio_couverture_dettes",    { min := some 3,      optimal := some 5 }),
  ("roe",                        { min := some 10,     optimal := some 20 }),
  ("roa",                        { min := some 5,      optimal := some 10 }),
  ("marge_nette",                { min := some 3,      optimal := some 8 }),
  ("marge_brute",                { min := some 15,     optimal := some 30 }),
  ("rotation_actif",             { min := some (4/5),  optimal := some (3/2) }),
  ("rotation_stocks",            { min := some 4,      optimal := some 8 }),
  ("delai_recouvrement",         { max := some 60,     optimal := some 30 }),
  ("ratio_capitaux_permanents",  { min := some 1,      optimal := some (6/5) }),
  ("ratio_financement_stable",   { min := some 1,      optimal := some (13/10) })]

/-- SECTORAL_NORMS from src/App.tsx. -/
def SECTORAL_NORMS : List (String × List (String × NormEntry)) := [
  ("industrie", [
    ("ratio_liquidite_generale",   { min := some (6/5), optimal := some (9/5) }),
    ("ratio_autonomie_financiere", { min := some 25,    optimal := some 45 }),
    ("roe",                        { min := some 8,     optimal := some 15 }),
    ("rotation_actif",             { min := some (4/5), optimal := some (6/5) })]),
  ("commerce", [
    ("ratio_liquidite_generale",   { min := some 1,     optimal := some (3/2) }),
    ("ratio_autonomie_financiere", { min := some 20,    optimal := some 35 }),
    ("roe",                        { min := some 12,    optimal := some 20 }),
    ("rotation_actif",             { min := some (6/5), optimal := some 2 })]),
  ("services", [
    ("ratio_liquidite_generale",   { min := some (3/2), optimal := some (5/2) }),
    ("ratio_autonomie_financiere", { min := some 30,    optimal := some 60 }),
    ("roe",                        { min := some 15,    optimal := some 25 }),
    ("rotation_actif",             { min := some 1,     optimal := some (9/5) })]),
  ("agriculture", [
    ("ratio_liquidite_generale",   { min := some (13/10), optimal := some 2 }),
    ("ratio_autonomie_financiere", { min := some 35,      optimal := some 55 }),
    ("roe",                        { min := some 10,      optimal := some 18 }),
    ("rotation_actif",             { min := some (3/5),   optimal := some 1 })])]

/-- JS object spread `{ ...base, ...ext }`: keys of `base` in order with
values overridden by `ext`, then keys of `ext` not in `base`. -/
def mergeNorms (base ext : List (String × NormEntry)) : List (String × NormEntry) :=
  base.map (fun p => (p.1, (objGet ext p.1).getD p.2)) ++
    ext.filter (fun p => !(base.any (fun q => q.1 = p.1)))

/-- Effective norms: `sector !== 'general' && SECTORAL_NORMS[sector] ?
{...BCEAO_NORMS, ...SECTORAL_NORMS[sector]} : BCEAO_NORMS`. -/
def effectiveNorms (sector : String) : List (String × NormEntry) :=
  if sector ≠ "general" then
    match objGet SECTORAL_NORMS sector with
    | some ext => mergeNorms BCEAO_NORMS ext
    | none => BCEAO_NORMS
  else BCEAO_NORMS

/-- Compliance status levels. -/
inductive CStatus where
  | excellent
  | good
  | acceptable
  | poor
  | critical
deriving DecidableEq, Repr

/-- Severity rank of a status: the `priorityOrder` used by
`checkBceaoCompliance` for sorting, `critical` lowest. -/
def sevRank : CStatus → ℕ
  | .critical => 0
  | .poor => 1
  | .acceptable => 2
  | .good => 3
  | .excellent => 4

/-- BceaoCompliance result record (the `recommendation` free-text field is
omitted: no verified property reads it). -/
structure BceaoCompliance where
  ratioName : String
  value : ℚ
  norm : NormEntry
  isCompliant : Bool
  status : CStatus
deriving DecidableEq, Repr

/-- FinancialCalculator.evaluateCompliance from src/App.tsx: classify a
value against a norm.  `isCompliant` starts `true` and is only set to
`false` in the `poor` and `critical` branches. -/
def evaluateCompliance (ratioName : String) (value : ℚ) (norm : NormEntry) : BceaoCompliance :=
  match norm.min, norm.max with
  | some m, none =>
      if value ≥ jsOrQ norm.optimal (m * (3/2)) then
        ⟨ratioName, value, norm, true, .excellent⟩
      else if value ≥ m then
        ⟨ratioName, value, norm, true, .good⟩
      else if value ≥ m * (4/5) then
        ⟨ratioName, value, norm, true, .acceptable⟩
      else if value ≥ m * (3/5) then
        ⟨ratioName, value, norm, false, .poor⟩
      else
        ⟨ratioName, value, norm, false, .critical⟩
  | none, some M =>
      if value ≤ jsOrQ norm.optimal (M * (7/10)) then
        ⟨ratioName, value, norm, true, .excellent⟩
      else if value ≤ M then
        ⟨ratioName, value, norm, true, .good⟩
      else if value ≤ M * (6/5) then
        ⟨ratioName, value, norm, true, .acceptable⟩
      else if value ≤ M * (3/2) then
        ⟨ratioName, value, norm, false, .poor⟩
      else
        ⟨ratioName, value, norm, false, .critical⟩
  | _, _ => ⟨ratioName, value, norm, true, .good⟩

/-- FinancialCalculator.checkBceaoCompliance from src/App.tsx: evaluate
every ratio that has a norm, then sort ascending by severity (stable, like
`Array.sort` with the `priorityOrder` comparator). -/
def checkBceaoCompliance (ratios : FinancialRatios) (sector : String) : List BceaoCompliance :=
  let norms := effectiveNorms sector
  let compliance := ratios.filterMap (fun p =>
    (objGet norms p.1).map (fun norm => evaluateCompliance p.1 p.2 norm))
  sortJs (fun a b => decide (sevRank a.status ≤ sevRank b.status)) compliance

/-! ## FinancialCalculator.calculateScore -/

/-- AnalysisScore record (risk_level as its string literal). -/
structure AnalysisScore where
  overall : ℤ
  profitability : ℤ
  liquidity : ℤ
  leverage : ℤ
  efficiency : ℤ
  trend : ℤ
  risk_level : String
deriving DecidableEq, Repr

/-- FinancialCalculator.scoreRatio from src/App.tsx: points for one ratio
against its norm; `inverse` for lower-is-better ratios. -/
def scoreRatio (value : ℚ) (norm : NormEntry) (maxPoints : ℚ) (inverse : Bool) : ℚ :=
  if inverse then
    match norm.max with
    | some M =>
        if value ≤ jsOrQ norm.optimal (M * (7/10)) then maxPoints
        else if value ≤ M then maxPoints * (7/10)
        else if value ≤ M * (13/10) then maxPoints * (2/5)
        else 0
    | none => maxPoints * (1/2)
  else
    match norm.min with
    | some m =>
        if value ≥ jsOrQ norm.optimal (m * (3/2)) then maxPoints
        else if value ≥ m then maxPoints * (7/10)
        else if value ≥ m * (7/10) then maxPoints * (2/5)
        else 0
    | none => maxPoints * (1/2)

/-- One `if (ratio !== undefined && norm) score += scoreRatio(...)` step of
calculateScore: the contribution of one ratio key to its category pool. -/
def poolScore (ratios : FinancialRatios) (norms : List (String × NormEntry))
    (k : String) (maxPoints : ℚ) (inverse : Bool) : ℚ :=
  match objGet ratios k, objGet norms k with
  | some v, some n => scoreRatio v n maxPoints inverse
  | _, _ => 0

/-- FinancialCalculator.calculateScore from src/App.tsx. -/
def calculateScore (ratios : FinancialRatios) (sector : String) : AnalysisScore :=
  let norms := effectiveNorms sector
  let liquidityScore :=
    poolScore ratios norms "ratio_liquidite_generale" 20 false +
    poolScore ratios norms "ratio_liquidite_immediate" 20 false
  let leverageScore :=
    poolScore ratios norms "ratio_autonomie_financiere" 20 false +
    poolScore ratios norms "ratio_endettement" 20 true
  let profitabilityScore :=
    poolScore ratios norms "roe" 10 false +
    poolScore ratios norms "roa" 10 false +
    poolScore ratios norms "marge_nette" 10 false
  let efficiencyScore := poolScore ratios norms "rotation_actif" 15 false
  let trendScore : ℚ := 12
  let totalScore := liquidityScore + leverageScore + profitabilityScore + efficiencyScore + trendScore
  let overall := jsRound (totalScore / 140 * 100)
  let riskLevel :=
    if overall ≥ 80 then "low"
    else if overall ≥ 60 then "medium"
    else if overall ≥ 40 then "high"
    else "critical"
  { overall := overall
    profitability := jsRound (profitabilityScore / 30 * 100)
    liquidity := jsRound (liquidityScore / 40 * 100)
    leverage := jsRound (leverageScore / 40 * 100)
    efficiency := jsRound (efficiencyScore / 15 * 100)
    trend := jsRound (trendScore / 15 * 100)
    risk_level := riskLevel }

/-! ## FinancialCalculator.generateInsights -/

/-- AnalysisInsight record (the dynamic `description` and the
`recommendation` free text are omitted: no verified property reads them). -/
structure AnalysisInsight where
  category : String
  type : String
  title : String
  impact : String
deriving DecidableEq, Repr

/-- FinancialCalculator.generateInsights from src/App.tsx.  The year keys
are sorted with the DEFAULT `Array.sort` (lexicographic string order), and
the last two sorted keys are read as `latestKey` and `previousKey`; the
`sector` parameter is unused in the source body.  In `calculateAnalysis`
the `allRatios` record has an entry for every key of `multiyearData`, so
the two lookups always succeed there (`getD []` is never taken). -/
def generateInsights (multiyearData : MultiyearData)
    (allRatios : List (String × FinancialRatios)) (_sector : String) :
    List AnalysisInsight :=
  let years := sortJs strLe (multiyearData.map (fun p => p.1))
  if years.length < 2 then [] else
  let latestKey := years.getD (years.length - 1) ""
  let previousKey := years.getD (years.length - 2) ""
  let latestRatios := (objGet allRatios latestKey).getD []
  let previousRatios := (objGet allRatios previousKey).getD []
  (if truthy latestRatios "roe" && truthy previousRatios "roe" then
    let roeChange := getQ latestRatios "roe" - getQ previousRatios "roe"
    if roeChange > 2 then
      [⟨"profitability", "positive", "Amélioration de la rentabilité", "high"⟩]
    else if roeChange < -2 then
      [⟨"profitability", "negative", "Détérioration de la rentabilité", "high"⟩]
    else []
  else []) ++
  (if truthy latestRatios "ratio_liquidite_generale" then
    if getQ latestRatios "ratio_liquidite_generale" < 6/5 then
      [⟨"liquidity", "warning", "Liquidité insuffisante", "high"⟩]
    else if getQ latestRatios "ratio_liquidite_generale" > 5/2 then
      [⟨"liquidity", "neutral", "Liquidité excédentaire", "medium"⟩]
    else []
  else []) ++
  (if truthy latestRatios "ratio_autonomie_financiere" then
    if getQ latestRatios "ratio_autonomie_financiere" < 20 then
      [⟨"leverage", "warning", "Autonomie financière faible", "high"⟩]
    else []
  else [])

/-! ## FinancialCalculator.generateRecommendations -/

/-- Recommendation record (free-text `description` and `expected_impact`
omitted: no verified property reads them). -/
structure Recommendation where
  priority : String
  category : String
  title : String
  timeframe : String
deriving DecidableEq, Repr

/-- FinancialCalculator.generateRecommendations from src/App.tsx; the
`insights` and `sector` parameters are unused in the source body. -/
def generateRecommendations (ratios : FinancialRatios)
    (_insights : List AnalysisInsight) (_sector : String) : List Recommendation :=
  (if truthy ratios "ratio_liquidite_generale" && decide (getQ ratios "ratio_liquidite_generale" < 6/5) then
    [⟨"high", "Liquidité", "Améliorer la liquidité à court terme", "immediate"⟩] else []) ++
  (if truthy ratios "ratio_autonomie_financiere" && decide (getQ ratios "ratio_autonomie_financiere" < 20) then
    [⟨"high", "Structure Financière", "Renforcer les fonds propres", "medium-term"⟩] else []) ++
  (if truthy ratios "roe" && decide (getQ ratios "roe" < 10) then
    [⟨"medium", "Rentabilité", "Optimiser la rentabilité des capitaux propres", "medium-term"⟩] else []) ++
  (if truthy ratios "rotation_actif" && decide (getQ ratios "rotation_actif" < 4/5) then
    [⟨"medium", "Efficacité Opérationnelle", "Améliorer l\x27utilisation des actifs", "long-term"⟩] else []) ++
  [⟨"low", "Surveillance Continue", "Mettre en place un tableau de bord financier", "short-term"⟩]

/-! ## FinancialCalculator.calculateAnalysis -/

/-- A thrown JS error: `typeError` models a runtime TypeError (such as
reading a property of `undefined`), `error` models `new Error(msg)`. -/
inductive JsError where
  | typeError (msg : String)
  | error (msg : String)
deriving DecidableEq, Repr

/-- CalculationResult record from src/App.tsx. -/
structure CalculationResult where
  ratios : FinancialRatios
  score : AnalysisScore
  insights : List AnalysisInsight
  recommendations : List Recommendation
deriving DecidableEq, Repr

/-- FinancialCalculator.getLatestYearKey from src/App.tsx: sort the entries
by year descending (stable) and take the first key.  On an EMPTY record the
source reads `years[0].key` with `years[0] === undefined`, a TypeError;
that case is modelled as `none`. -/
def getLatestYearKey (multiyearData : MultiyearData) : Option String :=
  ((sortJs (fun a b => decide (b.2.year ≤ a.2.year)) multiyearData).head?).map (fun p => p.1)

/-- FinancialCalculator.calculateAnalysis from src/App.tsx, with thrown
errors made explicit in `Except`.  On empty input `getLatestYearKey`
crashes (TypeError) before the `if (!latestData)` guard can fire. -/
def calculateAnalysis (multiyearData : MultiyearData) (sector : String) :
    Except JsError CalculationResult :=
  match getLatestYearKey multiyearData with
  | none => .error (.typeError "Cannot read properties of undefined (reading \x27key\x27)")
  | some latestYearKey =>
    match objGet multiyearData latestYearKey with
    | none => .error (.error "No financial data available for analysis")
    | some _latestData =>
      let allRatios := multiyearData.map (fun p => (p.1, calculateRatios p.2.data))
      let latestRatios := (objGet allRatios latestYearKey).getD []
      let score := calculateScore latestRatios sector
      let insights := generateInsights multiyearData allRatios sector
      let recommendations := generateRecommendations latestRatios insights sector
      .ok ⟨latestRatios, score, insights, recommendations⟩

/-! ## ExcelProcessor: worksheet model and OHADA cell mappings

A worksheet is a grid of raw cell values (row-major, row 1 is the first
list entry); blanks are `.str ""`, matching the `''` default that
XLSX both reads back as an empty cell and supplies for absent cells in
row form.  Each mapping entry is `(field, cell_n, cell_n1)` in source
order; the display labels of the source table are omitted. -/

structure Worksheet where
  rows : List (List CellValue)
deriving DecidableEq, Repr

/-- A workbook: ordered sheet names plus the name-to-sheet object. -/
structure Workbook where
  sheetNames : List String
  sheets : List (String × Worksheet)
deriving DecidableEq, Repr

/-- Column letter to zero-based index (single letters A..Z only, all the
mapped cells use columns E, F, I, J). -/
def colIndex (c : Char) : ℕ := c.toNat - 65

/-- Parse a cell address such as "E35" into (column index, row number). -/
def parseCellAddr (s : String) : ℕ × ℕ :=
  match s.data with
  | c :: rest => (colIndex c, digitsVal rest 0)
  | [] => (0, 0)

/-- ExcelProcessor.getCellValue: `null` for an absent cell or one whose
value is empty, otherwise the raw value. -/
def getCellValue (ws : Worksheet) (cellAddress : String) : Option CellValue :=
  let p := parseCellAddr cellAddress
  match (ws.rows.getD (p.2 - 1) []).get? p.1 with
  | none => none
  | some v => if v = .str "" then none else some v

/-- BILAN_ACTIF_MAPPINGS (field, cell_n, cell_n1), source order. -/
def BILAN_ACTIF_MAPPINGS : List (String × String × String) := [
  ("immobilisations_incorporelles", "E5", "F5"),
  ("frais_developpement", "E6", "F6"),
  ("brevets_licences", "E7", "F7"),
  ("fonds_commercial", "E8", "F8"),
  ("autres_immob_incorporelles", "E9", "F9"),
  ("immobilisations_corporelles", "E10", "F10"),
  ("terrains", "E11", "F11"),
  ("batiments", "E12", "F12"),
  ("agencements", "E13", "F13"),
  ("materiel_mobilier", "E14", "F14"),
  ("materiel_transport", "E15", "F15"),
  ("avances_immobilisations", "E16", "F16"),
  ("immobilisations_financieres", "E18", "F18"),
  ("titres_participation", "E19", "F19"),
  ("autres_immob_financieres", "E20", "F20"),
  ("total_actif_immobilise", "E21", "F21"),
  ("actif_circulant_hao", "E22", "F22"),
  ("stocks", "E23", "F23"),
  ("creances_clients", "E24", "F24"),
  ("fournisseurs_avances", "E25", "F25"),
  ("clients", "E26", "F26"),
  ("autres_creances", "E27", "F27"),
  ("total_actif_circulant", "E28", "F28"),
  ("titres_placement", "E30", "F30"),
  ("valeurs_encaisser", "E31", "F31"),
  ("banques_caisses", "E32", "F32"),
  ("tresorerie_actif", "E33", "F33"),
  ("ecart_conversion_actif", "E34", "F34"),
  ("total_actif", "E35", "F35")]

/-- BILAN_PASSIF_MAPPINGS (field, cell_n, cell_n1), source order. -/
def BILAN_PASSIF_MAPPINGS : List (String × String × String) := [
  ("capital_social", "I5", "J5"),
  ("actionnaires_capital", "I6", "J6"),
  ("primes_capital", "I7", "J7"),
  ("ecarts_reevaluation", "I8", "J8"),
  ("reserves_indisponibles", "I9", "J9"),
  ("reserves_libres", "I10", "J10"),
  ("reserves_reportees", "I11", "J11"),
  ("resultat_exercice", "I12", "J12"),
  ("subventions_investissement", "I13", "J13"),
  ("provisions_reglementees", "I14", "J14"),
  ("capitaux_propres", "I15", "J15"),
  ("emprunts_dettes_financieres", "I17", "J17"),
  ("dettes_location", "I18", "J18"),
  ("provisions_financieres", "I19", "J19"),
  ("dettes_financieres", "I20", "J20"),
  ("ressources_stables", "I21", "J21"),
  ("dettes_circulantes_hao", "I22", "J22"),
  ("clients_avances_recues", "I23", "J23"),
  ("dettes_fournisseurs", "I24", "J24"),
  ("dettes_sociales_fiscales", "I25", "J25"),
  ("autres_dettes", "I26", "J26"),
  ("provisions_court_terme", "I27", "J27"),
  ("total_dettes", "I28", "J28"),
  ("banques_credits_escompte", "I30", "J30"),
  ("banques_credits_tresorerie", "I31", "J31"),
  ("tresorerie_passif", "I33", "J33"),
  ("ecart_conversion_passif", "I34", "J34"),
  ("total_passif", "I35", "J35")]

/-- CR_MAPPINGS (field, cell_n, cell_n1), source order. -/
def CR_MAPPINGS : List (String × String × String) := [
  ("ventes_marchandises", "E5", "F5"),
  ("achats_marchandises", "E6", "F6"),
  ("variation_stocks_marchandises", "E7", "F7"),
  ("marge_commerciale", "E8", "F8"),
  ("ventes_produits_fabriques", "E9", "F9"),
  ("travaux_services", "E10", "F10"),
  ("produits_accessoires", "E11", "F11"),
  ("chiffre_affaires", "E12", "F12"),
  ("production_stockee", "E13", "F13"),
  ("production_immobilisee", "E14", "F14"),
  ("subvention_exploitation", "E15", "F15"),
  ("autres_produits", "E16", "F16"),
  ("transferts_charges", "E17", "F17"),
  ("achats_matieres_premieres", "E18", "F18"),
  ("variation_stocks_mp", "E19", "F19"),
  ("autres_achats", "E20", "F20"),
  ("variation_autres_stocks", "E21", "F21"),
  ("transports", "E22", "F22"),
  ("services_exterieurs", "E23", "F23"),
  ("impots_taxes", "E24", "F24"),
  ("autres_charges", "E25", "F25"),
  ("valeur_ajoutee", "E26", "F26"),
  ("charges_personnel", "E27", "F27"),
  ("excedent_brut_exploitation", "E28", "F28"),
  ("reprises_amortissements", "E29", "F29"),
  ("dotations_amortissements", "E30", "F30"),
  ("resultat_exploitation", "E31", "F31"),
  ("revenus_financiers", "E32", "F32"),
  ("reprises_provisions_financieres", "E33", "F33"),
  ("transferts_charges_financieres", "E34", "F34"),
  ("frais_financiers", "E35", "F35"),
  ("dotations_provisions_financieres", "E36", "F36"),
  ("resultat_financier", "E37", "F37"),
  ("resultat_courant", "E38", "F38"),
  ("produits_cessions_immobilisations", "E39", "F39"),
  ("autres_produits_hao", "E40", "F40"),
  ("valeurs_comptables_cessions", "E41", "F41"),
  ("autres_charges_hao", "E42", "F42"),
  ("resultat_hao", "E43", "F43"),
  ("participation_travailleurs", "E44", "F44"),
  ("impots_resultat", "E45", "F45"),
  ("resultat_net", "E46", "F46")]

/-- TFT_MAPPINGS (field, cell_n, cell_n1), source order. -/
def TFT_MAPPINGS : List (String × String × String) := [
  ("tresorerie_debut_periode", "E3", "F3"),
  ("flux_tresorerie_activites_operationnelles_header", "E4", "F4"),
  ("capacite_autofinancement", "E5", "F5"),
  ("variation_actif_circulant_hao", "E6", "F6"),
  ("variation_stocks", "E7", "F7"),
  ("variation_creances", "E8", "F8"),
  ("variation_passif_circulant", "E9", "F9"),
  ("variation_bfg", "E10", "F10"),
  ("flux_tresorerie_activites_operationnelles", "E11", "F11"),
  ("flux_investissements_header", "E12", "F12"),
  ("decaissements_immob_incorp", "E13", "F13"),
  ("decaissements_immob_corp", "E14", "F14"),
  ("decaissements_immob_fin", "E15", "F15"),
  ("encaissements_cessions_ic", "E16", "F16"),
  ("encaissements_cessions_fin", "E17", "F17"),
  ("flux_tresorerie_activites_investissement", "E18", "F18"),
  ("flux_capitaux_propres_header", "E19", "F19"),
  ("augmentation_capital", "E20", "F20"),
  ("subventions_investissement", "E21", "F21"),
  ("prelevements_capital", "E22", "F22"),
  ("distributions", "E23", "F23"),
  ("flux_capitaux_propres_total", "E24", "F24"),
  ("flux_capitaux_etrangers_header", "E25", "F25"),
  ("emprunts", "E26", "F26"),
  ("autres_dettes_financieres", "E27", "F27"),
  ("remboursements", "E28", "F28"),
  ("flux_capitaux_etrangers_total", "E29", "F29"),
  ("flux_tresorerie_activites_financement", "E30", "F30"),
  ("variation_tresorerie", "E31", "F31"),
  ("tresorerie_fin_periode", "E32", "F32"),
  ("controle_tresorerie", "E33", "F33")]

/-- The merged Bilan mapping `{...BILAN_ACTIF_MAPPINGS,
...BILAN_PASSIF_MAPPINGS}`: the two key sets are disjoint, so the JS
spread is exactly concatenation in order. -/
def bilanMappings : List (String × String × String) :=
  BILAN_ACTIF_MAPPINGS ++ BILAN_PASSIF_MAPPINGS

/-- The three sheets processed by extractDataFromOhadaTemplate, in order. -/
def sheetsToProcess : List (String × List (String × String × String)) :=
  [("Bilan", bilanMappings), ("CR", CR_MAPPINGS), ("TFT", TFT_MAPPINGS)]

/-! ## ExcelProcessor: OHADA extraction -/

/-- The caller-supplied year configuration. -/
structure YearConfig where
  primaryYear : ℤ
  startYear : ℤ
  endYear : ℤ
deriving DecidableEq, Repr

/-- First match of the regex `N-(\d+)`: an `N`, a dash, then a digit run. -/
def findNDash : List Char → Option ℕ
  | 'N' :: '-' :: c :: rest =>
      if c.isDigit then
        some (digitsVal (c :: rest.takeWhile Char.isDigit) 0)
      else findNDash ('-' :: c :: rest)
  | _ :: rest => findNDash rest
  | [] => none

/-- ExcelProcessor.getYearFromKey: relative year key to absolute year. -/
def getYearFromKey (yearKey : String) (referenceYear : ℤ) : ℤ :=
  if yearKey = "N" then referenceYear
  else if yearKey = "N-1" then referenceYear - 1
  else if yearKey = "N-2" then referenceYear - 2
  else
    match findNDash yearKey.data with
    | some k => referenceYear - k
    | none => referenceYear

/-- The year-range filter `!yearConfig || (start ≤ y && y ≤ end)`. -/
def inYearRange (cfg : Option YearConfig) (y : ℤ) : Bool :=
  match cfg with
  | none => true
  | some c => decide (c.startYear ≤ y) && decide (y ≤ c.endYear)

/-- Record one extracted field value under a relative year key, creating
the `{ year, data: {} }` record first when absent (the stored `year` is
the one at creation time, as in the source). -/
def mdSetField (md : MultiyearData) (yearKey : String) (year : ℤ)
    (field : String) (v : ℚ) : MultiyearData :=
  match objGet md yearKey with
  | some yd => objSet md yearKey ⟨yd.year, objSet yd.data field v⟩
  | none => objSet md yearKey ⟨year, objSet [] field v⟩

/-- One mapping entry of the extraction loop: read the N cell and the N-1
cell, parse and store each non-null one that passes the year filter. -/
def extractField (ws : Worksheet) (cfg : Option YearConfig) (referenceYear : ℤ)
    (md : MultiyearData) (m : String × String × String) : MultiyearData :=
  let md1 :=
    match getCellValue ws m.2.1 with
    | none => md
    | some v =>
        let actualYearN := getYearFromKey "N" referenceYear
        if inYearRange cfg actualYearN then
          mdSetField md "N" actualYearN m.1 (parseNumericValue (some v))
        else md
  match getCellValue ws m.2.2 with
  | none => md1
  | some v =>
      let actualYearN1 := getYearFromKey "N-1" referenceYear
      if inYearRange cfg actualYearN1 then
        mdSetField md1 "N-1" actualYearN1 m.1 (parseNumericValue (some v))
      else md1

/-- Process every mapping entry of one sheet, in order. -/
def extractSheet (ws : Worksheet) (cfg : Option YearConfig) (referenceYear : ℤ)
    (md : MultiyearData) (mappings : List (String × String × String)) : MultiyearData :=
  mappings.foldl (extractField ws cfg referenceYear) md

/-- The missing-sheet warning `Feuille "<name>" non trouvée dans le fichier
Excel`. -/
def missingSheetWarning (name : String) : String :=
  "Feuille \"" ++ name ++ "\" non trouvée dans le fichier Excel"

/-- The sheet loop of extractDataFromOhadaTemplate: a missing sheet only
appends its warning, a present sheet is extracted with its mapping. -/
def processSheets (wb : Workbook) (cfg : Option YearConfig) (referenceYear : ℤ) :
    MultiyearData × List String :=
  sheetsToProcess.foldl (fun acc s =>
    match objGet wb.sheets s.1 with
    | none => (acc.1, acc.2 ++ [missingSheetWarning s.1])
    | some ws => (extractSheet ws cfg referenceYear acc.1 s.2, acc.2)) ([], [])

/-! ## ExcelProcessor.calculateDerivedFields

The five in-place mutations of one year's data, as sequential steps. -/

/-- The accumulated sum `totalProduitsExploitation` of the truthy revenue
components (the running `total += ...` of the source). -/
def totalProduitsSum (d : FinancialData) : ℚ :=
  (if truthy d "marge_commerciale" then getQ d "marge_commerciale" else 0) +
  (if truthy d "chiffre_affaires" then getQ d "chiffre_affaires" else 0) +
  (if truthy d "production_stockee" then getQ d "production_stockee" else 0) +
  (if truthy d "production_immobilisee" then getQ d "production_immobilisee" else 0) +
  (if truthy d "subvention_exploitation" then getQ d "subvention_exploitation" else 0) +
  (if truthy d "autres_produits" then getQ d "autres_produits" else 0) +
  (if truthy d "transferts_charges" then getQ d "transferts_charges" else 0)

/-- Step 1: total_produits_exploitation as the sum of the truthy revenue
components, with chiffre_affaires alone as fallback when the sum is not
positive. -/
def dStep1 (d : FinancialData) : FinancialData :=
  if totalProduitsSum d > 0 then
    objSet d "total_produits_exploitation" (totalProduitsSum d)
  else if truthy d "chiffre_affaires" then
    objSet d "total_produits_exploitation" (getQ d "chiffre_affaires")
  else d

/-- Step 2: total_charges_exploitation = total_produits_exploitation −
resultat_exploitation (guard: the first truthy, the second merely
present). -/
def dStep2 (d : FinancialData) : FinancialData :=
  if truthy d "total_produits_exploitation" && (objGet d "resultat_exploitation").isSome then
    objSet d "total_charges_exploitation"
      (getQ d "total_produits_exploitation" - getQ d "resultat_exploitation")
  else d

/-- Step 3: working_capital = total_actif_circulant − total_dettes. -/
def dStep3 (d : FinancialData) : FinancialData :=
  if truthy d "total_actif_circulant" && truthy d "total_dettes" then
    objSet d "working_capital" (getQ d "total_actif_circulant" - getQ d "total_dettes")
  else d

/-- Step 4: bfr, only when bfr is not already truthy. -/
def dStep4 (d : FinancialData) : FinancialData :=
  if !truthy d "bfr" && truthy d "total_actif_circulant" && truthy d "tresorerie_actif" &&
      truthy d "total_dettes" && truthy d "tresorerie_passif" then
    objSet d "bfr" ((getQ d "total_actif_circulant" - getQ d "tresorerie_actif") -
      (getQ d "total_dettes" - getQ d "tresorerie_passif"))
  else d

/-- Step 5: copy resultat_exercice into resultat_net when the latter is not
truthy. -/
def dStep5 (d : FinancialData) : FinancialData :=
  if truthy d "resultat_exercice" && !truthy d "resultat_net" then
    objSet d "resultat_net" (getQ d "resultat_exercice")
  else d

/-- The derived-field pass over one year's data. -/
def deriveFields (d : FinancialData) : FinancialData :=
  dStep5 (dStep4 (dStep3 (dStep2 (dStep1 d))))

/-- ExcelProcessor.calculateDerivedFields: the derived-field pass applied
to every year of a MultiyearData. -/
def calculateDerivedFields (md : MultiyearData) : MultiyearData :=
  md.map (fun p => (p.1, ⟨p.2.year, deriveFields p.2.data⟩))

/-! ## ExcelProcessor.extractDataFromOhadaTemplate: validation warnings -/

/-- The template heuristic: some year has a truthy significant field. -/
def hasRealData (md : MultiyearData) : Bool :=
  md.any (fun p =>
    ["chiffre_affaires", "total_actif", "capitaux_propres", "resultat_net"].any
      (fun f => truthy p.2.data f))

/-- Warning pushed when every significant field of every year is zero or
absent. -/
def templateWarning : String :=
  "⚠️ ATTENTION: Les données extraites semblent être un modèle vide. Assurez-vous de remplir le template avec vos données financières réelles avant de l\x27importer."

/-- Year-presence warning for one relative year key. -/
def missingYearWarning (yearKey : String) : String :=
  "Aucune donnée trouvée pour l\x27année " ++ yearKey

/-- Year-presence warning of the single-year branch. -/
def missingYearWarningSingle (targetYear : ℤ) (expectedYearKey : String) : String :=
  "Aucune donnée trouvée pour l\x27année " ++ toString targetYear ++ " (" ++ expectedYearKey ++ ")"

/-- True when the key is absent or its record has no fields. -/
def yearMissingOrEmpty (md : MultiyearData) (yearKey : String) : Bool :=
  match objGet md yearKey with
  | none => true
  | some yd => yd.data.isEmpty

/-- The year-presence validation block at the end of
extractDataFromOhadaTemplate. -/
def yearValidationWarnings (cfg : Option YearConfig) (referenceYear : ℤ)
    (md : MultiyearData) : List String :=
  match cfg with
  | some c =>
      if c.startYear = c.endYear then
        let targetYear := c.startYear
        let yearDiff := referenceYear - targetYear
        let expectedYearKey :=
          if yearDiff = 0 then "N" else if yearDiff = 1 then "N-1"
          else "N-" ++ toString yearDiff
        if yearMissingOrEmpty md expectedYearKey then
          [missingYearWarningSingle targetYear expectedYearKey]
        else []
      else
        (["N-1", "N"].filter (fun k => yearMissingOrEmpty md k)).map missingYearWarning
  | none =>
      (["N-1", "N"].filter (fun k => yearMissingOrEmpty md k)).map missingYearWarning

/-- The reference year `yearConfig?.primaryYear || new Date().getFullYear()`
(JS `||`: a zero primaryYear also falls back to the current year;
`currentYear` stands for `new Date().getFullYear()`). -/
def ohadaReferenceYear (cfg : Option YearConfig) (currentYear : ℤ) : ℤ :=
  match cfg with
  | some c => if c.primaryYear = 0 then currentYear else c.primaryYear
  | none => currentYear

/-- ExcelProcessor.extractDataFromOhadaTemplate: sheet loop, derived-field
pass, template heuristic and year validation. -/
def extractDataFromOhadaTemplate (wb : Workbook) (cfg : Option YearConfig)
    (currentYear : ℤ) : MultiyearData × List String :=
  let referenceYear := ohadaReferenceYear cfg currentYear
  let r := processSheets wb cfg referenceYear
  let md := calculateDerivedFields r.1
  let w1 := if hasRealData md then r.2 else r.2 ++ [templateWarning]
  (md, w1 ++ yearValidationWarnings cfg referenceYear md)

/-! ## ExcelProcessor: generic fallback processing -/

/-- Fraction digits of `r/den` by long division, `fuel` digits at most
(17, the maximum JS double precision). -/
def fracDigits : ℕ → ℕ → ℕ → List Char
  | _, _, 0 => []
  | r, den, fuel + 1 =>
      if r = 0 then []
      else
        Char.ofNat (48 + r * 10 / den) :: fracDigits (r * 10 % den) den fuel

/-- Decimal rendering of a rational, idealizing JS number-to-string
conversion (exact for integers and for fractions with a terminating
decimal expansion of at most 17 digits, the only values the OHADA
template realistically holds). -/
def ratToString (q : ℚ) : String :=
  let sign := if q.num < 0 then "-" else ""
  let n := q.num.natAbs
  let intPart := n / q.den
  let rem := n % q.den
  if rem = 0 then sign ++ toString intPart
  else sign ++ toString intPart ++ "." ++ String.mk (fracDigits rem q.den 17)

/-- `toString` of a formatted cell (strings unchanged). -/
def cellToString : CellValue → String
  | .str s => s
  | .num q => ratToString q

/-- First match of the regex `20\d{2}` in a char list, as the number
`parseInt` reads from it. -/
def find20xx : List Char → Option ℕ
  | [] => none
  | c1 :: rest =>
      match rest with
      | c2 :: c3 :: c4 :: _ =>
          if c1 = '2' ∧ c2 = '0' ∧ c3.isDigit ∧ c4.isDigit then
            some (2000 + (c3.toNat - 48) * 10 + (c4.toNat - 48))
          else find20xx rest
      | _ => none

/-- The four column-to-field mappings of the generic fallback. -/
def commonMappings : List (ℕ × String) :=
  [(1, "total_actif"), (2, "capitaux_propres"), (3, "chiffre_affaires"), (4, "resultat_net")]

/-- The fields the generic fallback reads from one year row: each present,
non-empty cell of columns 1..4 parsed into its field. -/
def genericRowFields (row : List CellValue) : FinancialData :=
  commonMappings.foldl (fun fd m =>
    match row.get? m.1 with
    | some v => if v = .str "" then fd else objSet fd m.2 (parseNumericValue (some v))
    | none => fd) []

/-- The relative year key the generic fallback builds from
`currentYear − year`. -/
def genericYearKey (yearDiff : ℤ) : String :=
  if yearDiff = 0 then "N" else if yearDiff = 1 then "N-1"
  else if yearDiff = 2 then "N-2" else "N-" ++ toString yearDiff

/-- One row of the generic fallback: a row whose first cell carries a year
`20xx` within 2000..2030 yields a year record from columns 1..4, stored
only when at least one field was found. -/
def genericRowExtract (currentYear : ℤ) (md : MultiyearData) (row : List CellValue) :
    MultiyearData :=
  if row.isEmpty then md else
  match find20xx (cellToString (row.getD 0 (.str ""))).trim.data with
  | none => md
  | some year =>
      if 2000 ≤ year ∧ year ≤ 2030 then
        if (genericRowFields row).isEmpty then md
        else objSet md (genericYearKey (currentYear - (year : ℤ)))
          ⟨(year : ℤ), genericRowFields row⟩
      else md

/-- The no-data warning of the generic fallback. -/
def noGenericDataWarning : String :=
  "Aucune donnée financière valide trouvée. Assurez-vous d\x27utiliser le modèle OHADA/BCEAO fourni."

/-- The generic (non-OHADA) fallback of processWorksheet over the first
sheet, rows as `sheet_to_json` returns them.  `Except.error` models a
thrown exception: the explicit `throw` on a too-short sheet, and the
TypeError `sheet_to_json` raises when the first sheet is absent. -/
def processGeneric (wb : Workbook) (currentYear : ℤ) :
    Except String (MultiyearData × List String) :=
  match wb.sheetNames.head? with
  | none => .error "TypeError: cannot convert undefined worksheet"
  | some n =>
      match objGet wb.sheets n with
      | none => .error "TypeError: cannot convert undefined worksheet"
      | some ws =>
          if ws.rows.length < 2 then
            .error "Le fichier Excel doit contenir au moins une ligne d\x27en-têtes et une ligne de données"
          else
            let md := ws.rows.foldl (genericRowExtract currentYear) []
            let warnings := if md.isEmpty then [noGenericDataWarning] else []
            .ok (md, warnings)

/-- ExcelProcessor.processWorksheet: use the OHADA extraction when one of
the expected sheets exists and it produced at least one year record, else
fall back to generic processing (also when the OHADA extraction threw,
which the model never does). -/
def processWorksheet (wb : Workbook) (cfg : Option YearConfig) (currentYear : ℤ) :
    Except String (MultiyearData × List String) :=
  let hasOhadaSheets := ["Bilan", "CR", "TFT"].any (fun n => wb.sheetNames.contains n)
  if hasOhadaSheets then
    let ohadaResult := extractDataFromOhadaTemplate wb cfg currentYear
    if !ohadaResult.1.isEmpty then .ok ohadaResult
    else processGeneric wb currentYear
  else processGeneric wb currentYear

/-- ExcelProcessingResult from the excel-processing service. -/
structure ExcelProcessingResult where
  success : Bool
  data : Option MultiyearData := none
  error : Option String := none
  warnings : Option (List String) := none
deriving DecidableEq, Repr

/-- ExcelProcessor.processExcelFile from the point where the workbook has
been read (the file-type, file-size and array-buffer I/O checks that
precede it are outside this embedding): empty workbook is an immediate
failure; a thrown processWorksheet becomes a warning with no data; empty
extracted data is the hard failure; otherwise success with the data and
the warnings (omitted when empty). -/
def processExcelFile (wb : Workbook) (cfg : Option YearConfig) (currentYear : ℤ) :
    ExcelProcessingResult :=
  if wb.sheetNames.isEmpty then
    { success := false, error := some "Le fichier Excel ne contient aucune feuille de calcul" }
  else
    match processWorksheet wb cfg currentYear with
    | .ok r =>
        if r.1.isEmpty then
          { success := false,
            error := some "Aucune donnée financière valide trouvée dans le fichier Excel",
            warnings := some r.2 }
        else
          { success := true, data := some r.1,
            warnings := if r.2.isEmpty then none else some r.2 }
    | .error msg =>
        { success := false,
          error := some "Aucune donnée financière valide trouvée dans le fichier Excel",
          warnings := some ["Erreur lors du traitement du fichier: " ++ msg] }

/-! ## Concrete test inputs -/

/-- Build one spreadsheet row (1-based row number `r`) of width `width`
from a cell-address assignment list; unassigned cells are blank. -/
def mkRow (cells : List (String × CellValue)) (r width : ℕ) : List CellValue :=
  (List.range width).map (fun c =>
    match cells.find? (fun p => parseCellAddr p.1 = (c, r)) with
    | some p => p.2
    | none => .str "")

/-- Build a worksheet grid from a cell-address assignment list. -/
def mkSheet (nRows width : ℕ) (cells : List (String × CellValue)) : Worksheet :=
  ⟨(List.range nRows).map (fun i => mkRow cells (i + 1) width)⟩

/-- Bilan sheet of end-to-end scenario 1: E35 = "10700000", I15 =
"6000000", all other cells blank. -/
def bilanSheetS1 : Worksheet :=
  mkSheet 35 10 [("E35", .str "10700000"), ("I15", .str "6000000")]

/-- CR sheet of end-to-end scenario 1: E12 = "8000000", E46 = "1000000". -/
def crSheetS1 : Worksheet :=
  mkSheet 46 10 [("E12", .str "8000000"), ("E46", .str "1000000")]

/-- The scenario-1 workbook: a Bilan sheet and a CR sheet. -/
def wbScenario1 : Workbook :=
  ⟨["Bilan", "CR"], [("Bilan", bilanSheetS1), ("CR", crSheetS1)]⟩

/-- Scenario-1 year configuration: reference year 2024 over 2023..2024. -/
def cfgScenario1 : Option YearConfig := some ⟨2024, 2023, 2024⟩

/-- The four extracted fields end-to-end scenario 1 claims for `N.data`. -/
def scenario1ClaimedData : FinancialData :=
  [("total_actif", 10700000), ("capitaux_propres", 6000000),
   ("chiffre_affaires", 8000000), ("resultat_net", 1000000)]

/-- The `N.data` the extraction actually produces for scenario 1: the four
extracted fields plus the derived total_produits_exploitation. -/
def scenario1ActualData : FinancialData :=
  scenario1ClaimedData ++ [("total_produits_exploitation", 8000000)]

/-- Two-year data whose ROE rises by 10 points from year 2023 ("N-1") to
year 2024 ("N"): the insight generator input exposing the year-ordering
bug. -/
def mdRoeImproves : MultiyearData :=
  [("N", ⟨2024, [("resultat_net", 200), ("capitaux_propres", 1000)]⟩),
   ("N-1", ⟨2023, [("resultat_net", 100), ("capitaux_propres", 1000)]⟩)]

/-- The per-year ratios `calculateAnalysis` computes for `mdRoeImproves`
(ROE 20 for "N", ROE 10 for "N-1"). -/
def arRoeImproves : List (String × FinancialRatios) :=
  mdRoeImproves.map (fun p => (p.1, calculateRatios p.2.data))

/-- A workbook with only a CR sheet (no Bilan, no TFT) holding one revenue
cell: OHADA extraction succeeds partially. -/
def wbMissingBilan : Workbook :=
  ⟨["CR"], [("CR", mkSheet 46 10 [("E12", .str "8000")])]⟩

/-- The inputs each emitted ratio key of `calculateRatios` requires: all
its source fields present and nonzero (hence, over JS numbers, a division
by a nonzero divisor and a finite result); `false` for a key the function
never emits.  Each arm lists the guard of the corresponding conditional
assignment. -/
def ratioInputsOk (d : FinancialData) (k : String) : Bool :=
  match k with
  | "ratio_liquidite_generale" =>
      truthy d "total_actif_circulant" && truthy d "tresorerie_actif" && truthy d "total_dettes"
  | "ratio_liquidite_immediate" => truthy d "tresorerie_actif" && truthy d "total_dettes"
  | "ratio_autonomie_financiere" => truthy d "capitaux_propres" && truthy d "total_actif"
  | "ratio_endettement" => truthy d "total_dettes" && truthy d "total_actif"
  | "ratio_couverture_dettes" => truthy d "dettes_financieres" && truthy d "excedent_brut_exploitation"
  | "roe" => truthy d "resultat_net" && truthy d "capitaux_propres"
  | "roa" => truthy d "resultat_net" && truthy d "total_actif"
  | "marge_nette" => truthy d "resultat_net" && truthy d "chiffre_affaires"
  | "marge_brute" => truthy d "marge_commerciale" && truthy d "chiffre_affaires"
  | "rotation_actif" => truthy d "chiffre_affaires" && truthy d "total_actif"
  | "rotation_stocks" => truthy d "chiffre_affaires" && truthy d "total_actif_circulant"
  | "working_capital" => truthy d "total_actif_circulant" && truthy d "total_dettes"
  | "ratio_financement_stable" => truthy d "capitaux_propres" && truthy d "total_actif_immobilise"
  | "marge_ebe" => truthy d "excedent_brut_exploitation" && truthy d "chiffre_affaires"
  | "taux_valeur_ajoutee" => truthy d "valeur_ajoutee" && truthy d "chiffre_affaires"
  | _ => false

/-- Total number of extracted fields of a processWorksheet outcome (zero
for a thrown extraction). -/
def extractedFieldCount (r : Except String (MultiyearData × List String)) : ℕ :=
  match r with
  | .error _ => 0
  | .ok p => (p.1.map (fun q => q.2.data.length)).sum
theorem objGet_objSet_self {α : Type} (d : List (String × α)) (k : String) (v : α) :
    objGet (objSet d k v) k = some v := by
  induction d with
  | nil => simp [objGet, objSet]
  | cons p rest ih =>
    by_cases h : p.1 = k
    · simp [objGet, objSet, h]
    · simp [objGet, objSet, h, ih]

theorem objGet_objSet_ne {α : Type} (d : List (String × α)) (k k' : String) (v : α)
    (h : k ≠ k') : objGet (objSet d k v) k' = objGet d k' := by
  induction d with
  | nil => simp [objGet, objSet, h]
  | cons p rest ih =>
    by_cases hp : p.1 = k
    · simp [objGet, objSet, hp, h]
    · by_cases hp' : p.1 = k'
      · simp [objGet, objSet, hp, hp', Ne.symm h]
      · simp [objGet, objSet, hp, hp', ih]

theorem objSet_eq_self {α : Type} (d : List (String × α)) (k : String) (v : α)
    (h : objGet d k = some v) : objSet d k v = d := by
  induction d with
  | nil => simp [objGet] at h
  | cons p rest ih =>
    obtain ⟨pk, pv⟩ := p
    by_cases hp : pk = k
    · simp [objGet, hp] at h
      simp [objSet, hp, h]
    · simp [objGet, hp] at h
      simp [objSet, hp, ih h]

theorem objSet_ne_nil {α : Type} (d : List (String × α)) (k : String) (v : α) :
    objSet d k v ≠ [] := by
  cases d with
  | nil => simp [objSet]
  | cons p rest => by_cases hp : p.1 = k <;> simp [objSet, hp]

theorem mem_insertSorted {α : Type} (le : α → α → Bool) (a x : α) (l : List α) :
    x ∈ insertSorted le a l ↔ x = a ∨ x ∈ l := by
  induction l with
  | nil => simp [insertSorted]
  | cons b bs ih =>
    by_cases h : le b a = true
    · simp only [insertSorted, if_pos h, List.mem_cons, ih]
      tauto
    · simp only [insertSorted, if_neg h, List.mem_cons]

theorem mem_sortJs {α : Type} (le : α → α → Bool) (x : α) (l : List α) :
    x ∈ sortJs le l ↔ x ∈ l := by
  suffices h : ∀ acc : List α, x ∈ l.foldl (fun acc y => insertSorted le y acc) acc ↔
      x ∈ l ∨ x ∈ acc by
    simpa [sortJs] using h []
  induction l with
  | nil => simp
  | cons b bs ih =>
    intro acc
    simp only [List.foldl_cons, ih, mem_insertSorted]
    constructor
    · rintro (h | h | h) <;> simp_all
    · rintro (h | h) <;> simp_all; tauto


theorem objGet_append {α : Type} (A B : List (String × α)) (k : String) :
    objGet (A ++ B) k = (objGet A k).orElse (fun _ => objGet B k) := by
  induction A with
  | nil => simp [objGet]
  | cons p rest ih => by_cases h : p.1 = k <;> simp [objGet, h, ih]

theorem mem_ite_singleton {α : Type} {g : Prop} [Decidable g] {x p : α}
    (h : p ∈ (if g then [x] else ([] : List α))) : g ∧ p = x := by
  by_cases hg : g
  · rw [if_pos hg] at h
    exact ⟨hg, List.mem_singleton.mp h⟩
  · rw [if_neg hg] at h
    simp at h

theorem objGet_ite_singleton {α : Type} {g : Prop} [Decidable g] (k' k : String) (v : α) :
    objGet (if g then [(k', v)] else []) k =
      if g then (if k' = k then some v else none) else none := by
  by_cases hg : g <;> by_cases hk : k' = k <;> simp [objGet, hg, hk]

theorem evaluateCompliance_isCompliant_iff (nm : String) (v : ℚ) (n : NormEntry) :
    (evaluateCompliance nm v n).isCompliant = true ↔
      ((evaluateCompliance nm v n).status = CStatus.excellent ∨
       (evaluateCompliance nm v n).status = CStatus.good ∨
       (evaluateCompliance nm v n).status = CStatus.acceptable) := by
  unfold evaluateCompliance
  rcases hm : n.min with _ | m <;> rcases hM : n.max with _ | M <;>
      simp only [] <;>
    first
    | (split_ifs <;> simp)
    | simp

theorem mem_checkBceaoCompliance {ratios : FinancialRatios} {sector : String}
    {r : BceaoCompliance} (h : r ∈ checkBceaoCompliance ratios sector) :
    ∃ p ∈ ratios, ∃ n, objGet (effectiveNorms sector) p.1 = some n ∧
      r = evaluateCompliance p.1 p.2 n := by
  unfold checkBceaoCompliance at h
  rw [mem_sortJs] at h
  rw [List.mem_filterMap] at h
  obtain ⟨p, hp, hmap⟩ := h
  rw [Option.map_eq_some'] at hmap
  obtain ⟨n, hn, rfl⟩ := hmap
  exact ⟨p, hp, n, hn, rfl⟩

/-- Claim C1 (amended): an element of checkBceaoCompliance output has
isCompliant = true exactly when its status is excellent, good or
ACCEPTABLE; only poor and critical set isCompliant to false. -/
theorem c1_isCompliant_amended (ratios : FinancialRatios) (sector : String) :
    ∀ r ∈ checkBceaoCompliance ratios sector,
      (r.isCompliant = true ↔
        (r.status = CStatus.excellent ∨ r.status = CStatus.good ∨
         r.status = CStatus.acceptable)) := by
  intro r hr
  obtain ⟨p, _, n, _, rfl⟩ := mem_checkBceaoCompliance hr
  exact evaluateCompliance_isCompliant_iff p.1 p.2 n

/-- Claim C1 witness: the amended theorem applied to the concrete
acceptable-status result for ratio_autonomie_financiere = 17 under the
general norms. -/
theorem c1_isCompliant_amended_witness :
    (({ ratioName := "ratio_autonomie_financiere", value := 17,
        norm := { min := some 20, max := none, optimal := some 40 },
        isCompliant := true, status := CStatus.acceptable } : BceaoCompliance).isCompliant = true ↔
      (({ ratioName := "ratio_autonomie_financiere", value := 17,
          norm := { min := some 20, max := none, optimal := some 40 },
          isCompliant := true, status := CStatus.acceptable } : BceaoCompliance).status = CStatus.excellent ∨
       ({ ratioName := "ratio_autonomie_financiere", value := 17,
          norm := { min := some 20, max := none, optimal := some 40 },
          isCompliant := true, status := CStatus.acceptable } : BceaoCompliance).status = CStatus.good ∨
       ({ ratioName := "ratio_autonomie_financiere", value := 17,
          norm := { min := some 20, max := none, optimal := some 40 },
          isCompliant := true, status := CStatus.acceptable } : BceaoCompliance).status = CStatus.acceptable)) :=
  c1_isCompliant_amended [("ratio_autonomie_financiere", 17)] "general" _ (by decide)

/-- Claim C1 counterexample: under the general norms a ratio value of 17
against min 20 is classified acceptable yet keeps isCompliant = true, so
isCompliant is NOT restricted to excellent/good. -/
theorem c1_counterexample :
    ∃ r ∈ checkBceaoCompliance [("ratio_autonomie_financiere", 17)] "general",
      r.status = CStatus.acceptable ∧ r.isCompliant = true := by decide

/-- Claim C2 counterexample: the Excel parser turns every comma into a
dot, so "1.234,56" is cleaned to "1.234.56" and parseFloat reads only the
prefix "1.234": the result is 1.234, not the claimed 1234.56. -/
theorem c2_counterexample :
    parseNumericValue (some (.str "1.234,56")) = 617/500 ∧
      (617/500 : ℚ) ≠ 123456/100 := by decide

/-- Claim C2 (amended): ExcelProcessor.parseNumericValue replaces every
comma with a dot and strips currency symbols, whitespace and other
characters, then parseFloat reads the longest numeric prefix; both
"1.234,56" and "1,234.56" therefore parse to 1.234 (not 1234.56), while
"€ 1 234" parses to 1234 as claimed. -/
theorem c2_parser_amended :
    parseNumericValue (some (.str "1.234,56")) = 617/500 ∧
    parseNumericValue (some (.str "1,234.56")) = 617/500 ∧
    parseNumericValue (some (.str "€ 1 234")) = 1234 := by decide

/-- Claim C3: generateInsights sorts the relative year keys with the
default lexicographic Array.sort, under which "N" precedes "N-1"; it then
reads the LAST sorted key as the latest year.  For `mdRoeImproves`, whose
ROE rises from 10 (year 2023, key "N-1") to 20 (year 2024, key "N"), the
code therefore computes roeChange = 10 − 20 = −10 and emits the NEGATIVE
deterioration insight instead of the positive improvement insight the
claim describes. -/
theorem c3_insights_year_order_bug :
    generateInsights mdRoeImproves arRoeImproves "general" =
      [⟨"profitability", "negative", "Détérioration de la rentabilité", "high"⟩] := by
  decide

/-- Claim C4: on an empty MultiyearData, calculateAnalysis crashes with a
TypeError inside getLatestYearKey (reading `.key` of `undefined`) before
its `No financial data available for analysis` guard can fire. -/
theorem c4_empty_data_crash (sector : String) :
    calculateAnalysis [] sector =
      .error (.typeError "Cannot read properties of undefined (reading \x27key\x27)") := rfl

/-- Claim C8: for every min-bound norm entry (min set, max unset) the
compliance status is monotone non-decreasing in the value under the
severity order critical < poor < acceptable < good < excellent, and a
value exactly at min (1.2 against min 1.2, optimal 2.0) classifies as
good (inclusive boundary). -/
theorem c8_compliance_monotone :
    (∀ (nm : String) (n : NormEntry) (m v₁ v₂ : ℚ), n.min = some m → n.max = none →
      v₁ ≤ v₂ →
      sevRank (evaluateCompliance nm v₁ n).status ≤
        sevRank (evaluateCompliance nm v₂ n).status) ∧
    (evaluateCompliance "ratio_liquidite_generale" (6/5)
      { min := some (6/5), max := none, optimal := some 2 }).status = CStatus.good := by
  constructor
  · intro nm n m v₁ v₂ hmin hmax h
    unfold evaluateCompliance
    rw [hmin, hmax]
    dsimp only
    split_ifs <;> simp [sevRank] <;> linarith
  · decide

/-- Claim C8 witness: monotonicity applied at the concrete norm min 10,
optimal 20 with values 9 and 15. -/
theorem c8_compliance_monotone_witness :
    sevRank (evaluateCompliance "roe" 9 { min := some 10, max := none, optimal := some 20 }).status ≤
      sevRank (evaluateCompliance "roe" 15 { min := some 10, max := none, optimal := some 20 }).status :=
  c8_compliance_monotone.1 "roe" { min := some 10, max := none, optimal := some 20 } 10 9 15
    rfl rfl (by norm_num)

/-- Claim C5 counterexample: scenario 1 extraction does NOT produce
exactly the four claimed fields for N.data: the derived-field pass also
adds total_produits_exploitation = 8000000. -/
theorem c5_counterexample :
    (objGet (extractDataFromOhadaTemplate wbScenario1 cfgScenario1 2025).1 "N").map
        (fun yd => yd.data) ≠ some scenario1ClaimedData := by decide

/-- Claim C5 (amended): scenario 1 extraction with reference year 2024
produces for key "N" the year 2024 with the four claimed fields PLUS the
derived total_produits_exploitation = 8000000; calculateRatios on that
data yields roa = 1000/107 (≈ 9.35 within 0.005), roe = 50/3 (≈ 16.67
within 0.005) and marge_nette = 12.5 exactly. -/
theorem c5_scenario1_amended :
    objGet (extractDataFromOhadaTemplate wbScenario1 cfgScenario1 2025).1 "N" =
      some ⟨2024, scenario1ActualData⟩ ∧
    objGet (calculateRatios scenario1ActualData) "roa" = some (1000/107) ∧
    (1000/107 : ℚ) - 935/100 < 1/200 ∧ (935/100 : ℚ) - 1000/107 < 1/200 ∧
    objGet (calculateRatios scenario1ActualData) "roe" = some (50/3) ∧
    (50/3 : ℚ) - 1667/100 < 1/200 ∧ (1667/100 : ℚ) - 50/3 < 1/200 ∧
    objGet (calculateRatios scenario1ActualData) "marge_nette" = some (25/2) := by decide

/-- Claim C6: calculateRatios is total and every emitted ratio has all its
input fields present and nonzero (so its divisor is nonzero and its value
finite); in particular, for total_actif = 0 with resultat_net = 100 the
key roa is omitted rather than set to an infinite value. -/
theorem c6_ratio_totality :
    (∀ (data : FinancialData), ∀ p ∈ calculateRatios data, ratioInputsOk data p.1 = true) ∧
    objGet (calculateRatios [("total_actif", 0), ("resultat_net", 100)]) "roa" = none := by
  constructor
  · intro data p hp
    simp only [calculateRatios, List.mem_append, or_assoc] at hp
    rcases hp with hp | hp | hp | hp | hp | hp | hp | hp | hp | hp | hp | hp | hp | hp | hp
    all_goals
      obtain ⟨hg, hpe⟩ := mem_ite_singleton hp
      subst hpe
      exact hg
  · decide

/-- Claim C6 witness: the totality theorem applied to the concrete data
map with resultat_net 100 and capitaux_propres 1000, whose roe = 10 entry
the function emits. -/
theorem c6_ratio_totality_witness :
    ratioInputsOk [("resultat_net", 100), ("capitaux_propres", 1000)] "roe" = true :=
  c6_ratio_totality.1 [("resultat_net", 100), ("capitaux_propres", 1000)]
    ("roe", 10) (by decide)

/-- Claim C10: resultat_net = 0 suppresses roe, roa and marge_nette even
when their divisors capitaux_propres, total_actif and chiffre_affaires are
all present and nonzero: the truthiness guard checks the numerator too. -/
theorem c10_zero_numerator_suppression (d : FinancialData)
    (h0 : objGet d "resultat_net" = some 0)
    (h1 : truthy d "capitaux_propres" = true)
    (h2 : truthy d "total_actif" = true)
    (h3 : truthy d "chiffre_affaires" = true) :
    objGet (calculateRatios d) "roe" = none ∧
    objGet (calculateRatios d) "roa" = none ∧
    objGet (calculateRatios d) "marge_nette" = none := by
  have hrn : truthy d "resultat_net" = false := by simp [truthy, h0]
  refine ⟨?_, ?_, ?_⟩ <;>
    simp [calculateRatios, objGet_append, objGet_ite_singleton, hrn, Option.orElse]

/-- Claim C10 witness: the suppression theorem applied to the concrete
data map with resultat_net 0 and nonzero divisors. -/
theorem c10_zero_numerator_suppression_witness :
    objGet (calculateRatios [("resultat_net", 0), ("capitaux_propres", 5),
      ("total_actif", 7), ("chiffre_affaires", 9)]) "roe" = none ∧
    objGet (calculateRatios [("resultat_net", 0), ("capitaux_propres", 5),
      ("total_actif", 7), ("chiffre_affaires", 9)]) "roa" = none ∧
    objGet (calculateRatios [("resultat_net", 0), ("capitaux_propres", 5),
      ("total_actif", 7), ("chiffre_affaires", 9)]) "marge_nette" = none :=
  c10_zero_numerator_suppression
    [("resultat_net", 0), ("capitaux_propres", 5), ("total_actif", 7), ("chiffre_affaires", 9)]
    (by decide) (by decide) (by decide) (by decide)

theorem truthy_congr {d d' : FinancialData} {k : String}
    (h : objGet d k = objGet d' k) : truthy d k = truthy d' k := by
  simp [truthy, h]

theorem getQ_congr {d d' : FinancialData} {k : String}
    (h : objGet d k = objGet d' k) : getQ d k = getQ d' k := by
  simp [getQ, h]

theorem objGet_dStep1_ne (d : FinancialData) (k : String)
    (h : ("total_produits_exploitation" : String) ≠ k) :
    objGet (dStep1 d) k = objGet d k := by
  unfold dStep1
  split_ifs <;> first | exact objGet_objSet_ne _ _ _ _ h | rfl

theorem objGet_dStep2_ne (d : FinancialData) (k : String)
    (h : ("total_charges_exploitation" : String) ≠ k) :
    objGet (dStep2 d) k = objGet d k := by
  unfold dStep2
  split_ifs <;> first | exact objGet_objSet_ne _ _ _ _ h | rfl

theorem objGet_dStep3_ne (d : FinancialData) (k : String)
    (h : ("working_capital" : String) ≠ k) :
    objGet (dStep3 d) k = objGet d k := by
  unfold dStep3
  split_ifs <;> first | exact objGet_objSet_ne _ _ _ _ h | rfl

theorem objGet_dStep4_ne (d : FinancialData) (k : String)
    (h : ("bfr" : String) ≠ k) :
    objGet (dStep4 d) k = objGet d k := by
  unfold dStep4
  split_ifs <;> first | exact objGet_objSet_ne _ _ _ _ h | rfl

theorem objGet_dStep5_ne (d : FinancialData) (k : String)
    (h : ("resultat_net" : String) ≠ k) :
    objGet (dStep5 d) k = objGet d k := by
  unfold dStep5
  split_ifs <;> first | exact objGet_objSet_ne _ _ _ _ h | rfl

theorem objGet_deriveFields_ne (d : FinancialData) (k : String)
    (h1 : ("total_produits_exploitation" : String) ≠ k)
    (h2 : ("total_charges_exploitation" : String) ≠ k)
    (h3 : ("working_capital" : String) ≠ k)
    (h4 : ("bfr" : String) ≠ k)
    (h5 : ("resultat_net" : String) ≠ k) :
    objGet (deriveFields d) k = objGet d k := by
  unfold deriveFields
  rw [objGet_dStep5_ne _ _ h5, objGet_dStep4_ne _ _ h4, objGet_dStep3_ne _ _ h3,
    objGet_dStep2_ne _ _ h2, objGet_dStep1_ne _ _ h1]

theorem objGet_deriveFields_tp (d : FinancialData) :
    objGet (deriveFields d) "total_produits_exploitation" =
      objGet (dStep1 d) "total_produits_exploitation" := by
  unfold deriveFields
  rw [objGet_dStep5_ne _ _ (by decide), objGet_dStep4_ne _ _ (by decide),
    objGet_dStep3_ne _ _ (by decide), objGet_dStep2_ne _ _ (by decide)]

theorem objGet_deriveFields_tce (d : FinancialData) :
    objGet (deriveFields d) "total_charges_exploitation" =
      objGet (dStep2 (dStep1 d)) "total_charges_exploitation" := by
  unfold deriveFields
  rw [objGet_dStep5_ne _ _ (by decide), objGet_dStep4_ne _ _ (by decide),
    objGet_dStep3_ne _ _ (by decide)]

theorem objGet_deriveFields_wc (d : FinancialData) :
    objGet (deriveFields d) "working_capital" =
      objGet (dStep3 (dStep2 (dStep1 d))) "working_capital" := by
  unfold deriveFields
  rw [objGet_dStep5_ne _ _ (by decide), objGet_dStep4_ne _ _ (by decide)]

theorem objGet_deriveFields_bfr (d : FinancialData) :
    objGet (deriveFields d) "bfr" =
      objGet (dStep4 (dStep3 (dStep2 (dStep1 d)))) "bfr" := by
  unfold deriveFields
  rw [objGet_dStep5_ne _ _ (by decide)]

theorem totalProduitsSum_deriveFields (d : FinancialData) :
    totalProduitsSum (deriveFields d) = totalProduitsSum d := by
  unfold totalProduitsSum
  rw [truthy_congr (objGet_deriveFields_ne d "marge_commerciale" (by decide) (by decide) (by decide) (by decide) (by decide)),
    getQ_congr (objGet_deriveFields_ne d "marge_commerciale" (by decide) (by decide) (by decide) (by decide) (by decide)),
    truthy_congr (objGet_deriveFields_ne d "chiffre_affaires" (by decide) (by decide) (by decide) (by decide) (by decide)),
    getQ_congr (objGet_deriveFields_ne d "chiffre_affaires" (by decide) (by decide) (by decide) (by decide) (by decide)),
    truthy_congr (objGet_deriveFields_ne d "production_stockee" (by decide) (by decide) (by decide) (by decide) (by decide)),
    getQ_congr (objGet_deriveFields_ne d "production_stockee" (by decide) (by decide) (by decide) (by decide) (by decide)),
    truthy_congr (objGet_deriveFields_ne d "production_immobilisee" (by decide) (by decide) (by decide) (by decide) (by decide)),
    getQ_congr (objGet_deriveFields_ne d "production_immobilisee" (by decide) (by decide) (by decide) (by decide) (by decide)),
    truthy_congr (objGet_deriveFields_ne d "subvention_exploitation" (by decide) (by decide) (by decide) (by decide) (by decide)),
    getQ_congr (objGet_deriveFields_ne d "subvention_exploitation" (by decide) (by decide) (by decide) (by decide) (by decide)),
    truthy_congr (objGet_deriveFields_ne d "autres_produits" (by decide) (by decide) (by decide) (by decide) (by decide)),
    getQ_congr (objGet_deriveFields_ne d "autres_produits" (by decide) (by decide) (by decide) (by decide) (by decide)),
    truthy_congr (objGet_deriveFields_ne d "transferts_charges" (by decide) (by decide) (by decide) (by decide) (by decide)),
    getQ_congr (objGet_deriveFields_ne d "transferts_charges" (by decide) (by decide) (by decide) (by decide) (by decide))]

theorem dStep1_stable (d : FinancialData) :
    dStep1 (deriveFields d) = deriveFields d := by
  have hsum := totalProduitsSum_deriveFields d
  have hca : objGet (deriveFields d) "chiffre_affaires" = objGet d "chiffre_affaires" :=
    objGet_deriveFields_ne d _ (by decide) (by decide) (by decide) (by decide) (by decide)
  have htp := objGet_deriveFields_tp d
  unfold dStep1
  by_cases hA : totalProduitsSum d > 0
  · rw [if_pos (by rw [hsum]; exact hA), hsum]
    apply objSet_eq_self
    rw [htp]
    unfold dStep1
    rw [if_pos hA]
    exact objGet_objSet_self _ _ _
  · rw [if_neg (by rw [hsum]; exact hA)]
    by_cases hB : truthy d "chiffre_affaires" = true
    · rw [if_pos (by rw [truthy_congr hca]; exact hB), getQ_congr hca]
      apply objSet_eq_self
      rw [htp]
      unfold dStep1
      rw [if_neg hA, if_pos hB]
      exact objGet_objSet_self _ _ _
    · rw [if_neg (by rw [truthy_congr hca]; exact hB)]

theorem truthy_eq_true_iff (d : FinancialData) (k : String) :
    truthy d k = true ↔ ∃ v, objGet d k = some v ∧ v ≠ 0 := by
  cases h : objGet d k <;> simp [truthy, h]

theorem getQ_of_objGet {d : FinancialData} {k : String} {v : ℚ}
    (h : objGet d k = some v) : getQ d k = v := by
  simp [getQ, h]

theorem dStep2_stable (d : FinancialData) :
    dStep2 (deriveFields d) = deriveFields d := by
  have htp := objGet_deriveFields_tp d
  have hre : objGet (deriveFields d) "resultat_exploitation" =
      objGet (dStep1 d) "resultat_exploitation" := by
    rw [objGet_deriveFields_ne d _ (by decide) (by decide) (by decide) (by decide) (by decide),
      objGet_dStep1_ne _ _ (by decide)]
  have htce := objGet_deriveFields_tce d
  unfold dStep2
  have hguard : (truthy (deriveFields d) "total_produits_exploitation" &&
      (objGet (deriveFields d) "resultat_exploitation").isSome) =
      (truthy (dStep1 d) "total_produits_exploitation" &&
      (objGet (dStep1 d) "resultat_exploitation").isSome) := by
    rw [truthy_congr htp, hre]
  by_cases hg : (truthy (dStep1 d) "total_produits_exploitation" &&
      (objGet (dStep1 d) "resultat_exploitation").isSome) = true
  · rw [if_pos (hguard.trans hg), getQ_congr htp, getQ_congr hre]
    apply objSet_eq_self
    rw [htce]
    unfold dStep2
    rw [if_pos hg]
    exact objGet_objSet_self _ _ _
  · rw [if_neg (by rw [hguard]; exact hg)]

theorem dStep3_stable (d : FinancialData) :
    dStep3 (deriveFields d) = deriveFields d := by
  have htac : objGet (deriveFields d) "total_actif_circulant" =
      objGet (dStep2 (dStep1 d)) "total_actif_circulant" := by
    rw [objGet_deriveFields_ne d _ (by decide) (by decide) (by decide) (by decide) (by decide),
      objGet_dStep2_ne _ _ (by decide), objGet_dStep1_ne _ _ (by decide)]
  have htd : objGet (deriveFields d) "total_dettes" =
      objGet (dStep2 (dStep1 d)) "total_dettes" := by
    rw [objGet_deriveFields_ne d _ (by decide) (by decide) (by decide) (by decide) (by decide),
      objGet_dStep2_ne _ _ (by decide), objGet_dStep1_ne _ _ (by decide)]
  have hwc := objGet_deriveFields_wc d
  unfold dStep3
  have hguard : (truthy (deriveFields d) "total_actif_circulant" &&
      truthy (deriveFields d) "total_dettes") =
      (truthy (dStep2 (dStep1 d)) "total_actif_circulant" &&
      truthy (dStep2 (dStep1 d)) "total_dettes") := by
    rw [truthy_congr htac, truthy_congr htd]
  by_cases hg : (truthy (dStep2 (dStep1 d)) "total_actif_circulant" &&
      truthy (dStep2 (dStep1 d)) "total_dettes") = true
  · rw [if_pos (hguard.trans hg), getQ_congr htac, getQ_congr htd]
    apply objSet_eq_self
    rw [hwc]
    unfold dStep3
    rw [if_pos hg]
    exact objGet_objSet_self _ _ _
  · rw [if_neg (by rw [hguard]; exact hg)]

theorem dStep4_stable (d : FinancialData) :
    dStep4 (deriveFields d) = deriveFields d := by
  have htac : objGet (deriveFields d) "total_actif_circulant" =
      objGet (dStep3 (dStep2 (dStep1 d))) "total_actif_circulant" := by
    rw [objGet_deriveFields_ne d _ (by decide) (by decide) (by decide) (by decide) (by decide),
      objGet_dStep3_ne _ _ (by decide), objGet_dStep2_ne _ _ (by decide),
      objGet_dStep1_ne _ _ (by decide)]
  have hta : objGet (deriveFields d) "tresorerie_actif" =
      objGet (dStep3 (dStep2 (dStep1 d))) "tresorerie_actif" := by
    rw [objGet_deriveFields_ne d _ (by decide) (by decide) (by decide) (by decide) (by decide),
      objGet_dStep3_ne _ _ (by decide), objGet_dStep2_ne _ _ (by decide),
      objGet_dStep1_ne _ _ (by decide)]
  have htd : objGet (deriveFields d) "total_dettes" =
      objGet (dStep3 (dStep2 (dStep1 d))) "total_dettes" := by
    rw [objGet_deriveFields_ne d _ (by decide) (by decide) (by decide) (by decide) (by decide),
      objGet_dStep3_ne _ _ (by decide), objGet_dStep2_ne _ _ (by decide),
      objGet_dStep1_ne _ _ (by decide)]
  have htpv : objGet (deriveFields d) "tresorerie_passif" =
      objGet (dStep3 (dStep2 (dStep1 d))) "tresorerie_passif" := by
    rw [objGet_deriveFields_ne d _ (by decide) (by decide) (by decide) (by decide) (by decide),
      objGet_dStep3_ne _ _ (by decide), objGet_dStep2_ne _ _ (by decide),
      objGet_dStep1_ne _ _ (by decide)]
  have hbfr := objGet_deriveFields_bfr d
  by_cases hg : (!truthy (dStep3 (dStep2 (dStep1 d))) "bfr" &&
      truthy (dStep3 (dStep2 (dStep1 d))) "total_actif_circulant" &&
      truthy (dStep3 (dStep2 (dStep1 d))) "tresorerie_actif" &&
      truthy (dStep3 (dStep2 (dStep1 d))) "total_dettes" &&
      truthy (dStep3 (dStep2 (dStep1 d))) "tresorerie_passif") = true
  · have hd4 : dStep4 (dStep3 (dStep2 (dStep1 d))) =
        objSet (dStep3 (dStep2 (dStep1 d))) "bfr"
          ((getQ (dStep3 (dStep2 (dStep1 d))) "total_actif_circulant" -
            getQ (dStep3 (dStep2 (dStep1 d))) "tresorerie_actif") -
           (getQ (dStep3 (dStep2 (dStep1 d))) "total_dettes" -
            getQ (dStep3 (dStep2 (dStep1 d))) "tresorerie_passif")) := by
      unfold dStep4
      rw [if_pos hg]
    have hbfrB : objGet (deriveFields d) "bfr" =
        some ((getQ (dStep3 (dStep2 (dStep1 d))) "total_actif_circulant" -
            getQ (dStep3 (dStep2 (dStep1 d))) "tresorerie_actif") -
           (getQ (dStep3 (dStep2 (dStep1 d))) "total_dettes" -
            getQ (dStep3 (dStep2 (dStep1 d))) "tresorerie_passif")) := by
      rw [hbfr, hd4]
      exact objGet_objSet_self _ _ _
    simp only [Bool.and_eq_true, Bool.not_eq_eq_eq_not, Bool.not_true] at hg
    obtain ⟨⟨⟨⟨ha, hb⟩, hc⟩, hd'⟩, he'⟩ := hg
    by_cases hB : ((getQ (dStep3 (dStep2 (dStep1 d))) "total_actif_circulant" -
            getQ (dStep3 (dStep2 (dStep1 d))) "tresorerie_actif") -
           (getQ (dStep3 (dStep2 (dStep1 d))) "total_dettes" -
            getQ (dStep3 (dStep2 (dStep1 d))) "tresorerie_passif")) = 0
    · have hbfrFalse : truthy (deriveFields d) "bfr" = false := by
        simp [truthy, hbfrB, hB]
      unfold dStep4
      rw [if_pos (by
        rw [hbfrFalse, truthy_congr htac, truthy_congr hta, truthy_congr htd,
          truthy_congr htpv, hb, hc, hd', he']
        rfl)]
      rw [getQ_congr htac, getQ_congr hta, getQ_congr htd, getQ_congr htpv]
      apply objSet_eq_self
      exact hbfrB
    · have hbfrTrue : truthy (deriveFields d) "bfr" = true := by
        simp [truthy, hbfrB, hB]
      unfold dStep4
      rw [if_neg (by simp [hbfrTrue])]
  · have hd4 : dStep4 (dStep3 (dStep2 (dStep1 d))) = dStep3 (dStep2 (dStep1 d)) := by
      unfold dStep4
      rw [if_neg hg]
    have hbfr3 : objGet (deriveFields d) "bfr" =
        objGet (dStep3 (dStep2 (dStep1 d))) "bfr" := by
      rw [hbfr, hd4]
    unfold dStep4
    rw [if_neg (by
      rw [truthy_congr hbfr3, truthy_congr htac, truthy_congr hta, truthy_congr htd,
        truthy_congr htpv]
      exact hg)]

theorem dStep5_stable (d : FinancialData) :
    dStep5 (deriveFields d) = deriveFields d := by
  have hrex : objGet (deriveFields d) "resultat_exercice" =
      objGet (dStep4 (dStep3 (dStep2 (dStep1 d)))) "resultat_exercice" := by
    rw [objGet_deriveFields_ne d _ (by decide) (by decide) (by decide) (by decide) (by decide),
      objGet_dStep4_ne _ _ (by decide), objGet_dStep3_ne _ _ (by decide),
      objGet_dStep2_ne _ _ (by decide), objGet_dStep1_ne _ _ (by decide)]
  by_cases hg : (truthy (dStep4 (dStep3 (dStep2 (dStep1 d)))) "resultat_exercice" &&
      !truthy (dStep4 (dStep3 (dStep2 (dStep1 d)))) "resultat_net") = true
  · have he : deriveFields d = objSet (dStep4 (dStep3 (dStep2 (dStep1 d)))) "resultat_net"
        (getQ (dStep4 (dStep3 (dStep2 (dStep1 d)))) "resultat_exercice") := by
      unfold deriveFields dStep5
      rw [if_pos hg]
    simp only [Bool.and_eq_true, Bool.not_eq_eq_eq_not, Bool.not_true] at hg
    obtain ⟨ha, _⟩ := hg
    obtain ⟨v, hv, hv0⟩ := (truthy_eq_true_iff _ _).mp ha
    have hrn : objGet (deriveFields d) "resultat_net" = some v := by
      rw [he, getQ_of_objGet hv]
      exact objGet_objSet_self _ _ _
    have hrnTrue : truthy (deriveFields d) "resultat_net" = true := by
      simp [truthy, hrn, hv0]
    unfold dStep5
    rw [if_neg (by simp [hrnTrue])]
  · have he : deriveFields d = dStep4 (dStep3 (dStep2 (dStep1 d))) := by
      unfold deriveFields dStep5
      rw [if_neg hg]
    unfold dStep5
    rw [if_neg (by
      rw [truthy_congr hrex, truthy_congr (by rw [he] :
        objGet (deriveFields d) "resultat_net" =
          objGet (dStep4 (dStep3 (dStep2 (dStep1 d)))) "resultat_net")]
      exact hg)]

theorem deriveFields_idem (d : FinancialData) :
    deriveFields (deriveFields d) = deriveFields d := by
  conv_lhs => rw [show deriveFields (deriveFields d) =
    dStep5 (dStep4 (dStep3 (dStep2 (dStep1 (deriveFields d))))) from rfl]
  rw [dStep1_stable, dStep2_stable, dStep3_stable, dStep4_stable, dStep5_stable]

/-- Claim C9: the derived-field calculation is idempotent: a second
application of calculateDerivedFields changes no year's data (no field,
including total_produits_exploitation, total_charges_exploitation,
working_capital, bfr and resultat_net, is accumulated or changed). -/
theorem c9_derived_fields_idempotent : ∀ md : MultiyearData,
    calculateDerivedFields (calculateDerivedFields md) = calculateDerivedFields md := by
  intro md
  unfold calculateDerivedFields
  rw [List.map_map]
  apply List.map_congr_left
  intro p _
  simp [Function.comp, deriveFields_idem]
theorem mem_objSet {α : Type} {d : List (String × α)} {k : String} {v : α}
    {p : String × α} (h : p ∈ objSet d k v) : p = (k, v) ∨ p ∈ d := by
  induction d with
  | nil => simp [objSet] at h; simp [h]
  | cons q rest ih =>
    by_cases hq : q.1 = k
    · rw [objSet, if_pos hq] at h
      rcases List.mem_cons.mp h with h | h
      · exact Or.inl h
      · exact Or.inr (List.mem_cons_of_mem _ h)
    · rw [objSet, if_neg hq] at h
      rcases List.mem_cons.mp h with h | h
      · exact Or.inr (h ▸ List.mem_cons_self _ _)
      · rcases ih h with h | h
        · exact Or.inl h
        · exact Or.inr (List.mem_cons_of_mem _ h)

def recordsNonempty (md : MultiyearData) : Prop :=
  ∀ r ∈ md, r.2.data ≠ []

theorem recordsNonempty_mdSetField {md : MultiyearData} (yk : String) (y : ℤ)
    (f : String) (v : ℚ) (h : recordsNonempty md) :
    recordsNonempty (mdSetField md yk y f v) := by
  intro r hr
  unfold mdSetField at hr
  rcases hg : objGet md yk with _ | yd <;> rw [hg] at hr <;>
    rcases mem_objSet hr with h' | h'
  · rw [h']
    exact objSet_ne_nil _ _ _
  · exact h r h'
  · rw [h']
    exact objSet_ne_nil _ _ _
  · exact h r h'

theorem recordsNonempty_extractField {md : MultiyearData} (ws : Worksheet)
    (cfg : Option YearConfig) (ref : ℤ) (m : String × String × String)
    (h : recordsNonempty md) :
    recordsNonempty (extractField ws cfg ref md m) := by
  unfold extractField
  rcases getCellValue ws m.2.1 with _ | v <;> rcases getCellValue ws m.2.2 with _ | w <;>
    simp only [] <;> (try split_ifs) <;>
    first
    | exact h
    | exact recordsNonempty_mdSetField _ _ _ _ h
    | exact recordsNonempty_mdSetField _ _ _ _ (recordsNonempty_mdSetField _ _ _ _ h)

theorem recordsNonempty_extractSheet (ws : Worksheet) (cfg : Option YearConfig)
    (ref : ℤ) (mappings : List (String × String × String)) {md : MultiyearData}
    (h : recordsNonempty md) :
    recordsNonempty (extractSheet ws cfg ref md mappings) := by
  induction mappings generalizing md with
  | nil => exact h
  | cons m rest ih =>
    exact ih (recordsNonempty_extractField ws cfg ref m h)

theorem recordsNonempty_processSheets (wb : Workbook) (cfg : Option YearConfig)
    (ref : ℤ) : recordsNonempty (processSheets wb cfg ref).1 := by
  unfold processSheets
  have step : ∀ (l : List (String × List (String × String × String)))
      (acc : MultiyearData × List String), recordsNonempty acc.1 →
      recordsNonempty (l.foldl (fun acc s =>
        match objGet wb.sheets s.1 with
        | none => (acc.1, acc.2 ++ [missingSheetWarning s.1])
        | some ws => (extractSheet ws cfg ref acc.1 s.2, acc.2)) acc).1 := by
    intro l
    induction l with
    | nil => intro acc h; exact h
    | cons s rest ih =>
      intro acc h
      rw [List.foldl_cons]
      rcases hs : objGet wb.sheets s.1 with _ | ws <;> simp only [hs] <;>
        apply ih
      · exact h
      · exact recordsNonempty_extractSheet _ _ _ _ h
  exact step _ _ (by intro r hr; simp at hr)

theorem dStep1_ne_nil {d : FinancialData} (h : d ≠ []) : dStep1 d ≠ [] := by
  unfold dStep1
  split_ifs <;> first | exact objSet_ne_nil _ _ _ | exact h

theorem dStep2_ne_nil {d : FinancialData} (h : d ≠ []) : dStep2 d ≠ [] := by
  unfold dStep2
  split_ifs <;> first | exact objSet_ne_nil _ _ _ | exact h

theorem dStep3_ne_nil {d : FinancialData} (h : d ≠ []) : dStep3 d ≠ [] := by
  unfold dStep3
  split_ifs <;> first | exact objSet_ne_nil _ _ _ | exact h

theorem dStep4_ne_nil {d : FinancialData} (h : d ≠ []) : dStep4 d ≠ [] := by
  unfold dStep4
  split_ifs <;> first | exact objSet_ne_nil _ _ _ | exact h

theorem dStep5_ne_nil {d : FinancialData} (h : d ≠ []) : dStep5 d ≠ [] := by
  unfold dStep5
  split_ifs <;> first | exact objSet_ne_nil _ _ _ | exact h

theorem deriveFields_ne_nil {d : FinancialData} (h : d ≠ []) : deriveFields d ≠ [] :=
  dStep5_ne_nil (dStep4_ne_nil (dStep3_ne_nil (dStep2_ne_nil (dStep1_ne_nil h))))

theorem recordsNonempty_calculateDerivedFields {md : MultiyearData}
    (h : recordsNonempty md) : recordsNonempty (calculateDerivedFields md) := by
  intro r hr
  unfold calculateDerivedFields at hr
  rw [List.mem_map] at hr
  obtain ⟨p, hp, rfl⟩ := hr
  exact deriveFields_ne_nil (h p hp)

theorem recordsNonempty_extractOhada (wb : Workbook) (cfg : Option YearConfig)
    (cy : ℤ) : recordsNonempty (extractDataFromOhadaTemplate wb cfg cy).1 := by
  unfold extractDataFromOhadaTemplate
  exact recordsNonempty_calculateDerivedFields (recordsNonempty_processSheets _ _ _)

theorem recordsNonempty_objSet_record {md : MultiyearData}
    (h : recordsNonempty md) (yk : String) (yd : YearData) (hyd : yd.data ≠ []) :
    recordsNonempty (objSet md yk yd) := by
  intro r hr
  rcases mem_objSet hr with h' | h'
  · rw [h']
    exact hyd
  · exact h r h'

theorem recordsNonempty_genericRowExtract (cy : ℤ) {md : MultiyearData}
    (row : List CellValue) (h : recordsNonempty md) :
    recordsNonempty (genericRowExtract cy md row) := by
  unfold genericRowExtract
  by_cases h1 : row.isEmpty = true
  · rw [if_pos h1]
    exact h
  rw [if_neg h1]
  rcases hy : find20xx (cellToString (row.getD 0 (CellValue.str ""))).trim.data with _ | year
  · simp only [hy]
    exact h
  simp only [hy]
  by_cases h2 : 2000 ≤ year ∧ year ≤ 2030
  · rw [if_pos h2]
    by_cases h3 : (genericRowFields row).isEmpty = true
    · rw [if_pos h3]
      exact h
    · rw [if_neg h3]
      apply recordsNonempty_objSet_record h
      intro hc
      rw [show (⟨(year : ℤ), genericRowFields row⟩ : YearData).data =
        genericRowFields row from rfl] at hc
      rw [hc] at h3
      simp at h3
  · rw [if_neg h2]
    exact h

theorem recordsNonempty_processGeneric {wb : Workbook} {cy : ℤ}
    {md : MultiyearData} {w : List String}
    (h : processGeneric wb cy = .ok (md, w)) : recordsNonempty md := by
  unfold processGeneric at h
  rcases hn : wb.sheetNames.head? with _ | n <;> simp only [hn] at h
  · simp at h
  rcases hs : objGet wb.sheets n with _ | ws <;> simp only [hs] at h
  · simp at h
  by_cases hlen : ws.rows.length < 2
  · rw [if_pos hlen] at h
    simp at h
  rw [if_neg hlen] at h
  have step : ∀ (l : List (List CellValue)) (acc : MultiyearData),
      recordsNonempty acc →
      recordsNonempty (l.foldl (genericRowExtract cy) acc) := by
    intro l
    induction l with
    | nil => intro acc hacc; exact hacc
    | cons row rest ih =>
      intro acc hacc
      rw [List.foldl_cons]
      exact ih _ (recordsNonempty_genericRowExtract cy row hacc)
  have hstep := step ws.rows [] (by intro r hr; simp at hr)
  have hmd : md = ws.rows.foldl (genericRowExtract cy) [] := by
    rcases Except.ok.inj h with h'
    exact (congrArg Prod.fst h').symm
  rw [hmd]
  exact hstep

theorem processWorksheet_def (wb : Workbook) (cfg : Option YearConfig) (cy : ℤ) :
    processWorksheet wb cfg cy =
      (if (["Bilan", "CR", "TFT"].any fun n => wb.sheetNames.contains n) = true then
        (if (!(extractDataFromOhadaTemplate wb cfg cy).1.isEmpty) = true then
          Except.ok (extractDataFromOhadaTemplate wb cfg cy)
        else processGeneric wb cy)
      else processGeneric wb cy) := rfl

theorem recordsNonempty_processWorksheet {wb : Workbook} {cfg : Option YearConfig}
    {cy : ℤ} {md : MultiyearData} {w : List String}
    (h : processWorksheet wb cfg cy = .ok (md, w)) : recordsNonempty md := by
  rw [processWorksheet_def] at h
  split_ifs at h
  · rcases Except.ok.inj h with h'
    have hmd : md = (extractDataFromOhadaTemplate wb cfg cy).1 :=
      (congrArg Prod.fst h').symm
    rw [hmd]
    exact recordsNonempty_extractOhada _ _ _
  · exact recordsNonempty_processGeneric h
  · exact recordsNonempty_processGeneric h

theorem processExcelFile_failure_iff (wb : Workbook) (cfg : Option YearConfig) (cy : ℤ) :
    (processExcelFile wb cfg cy).success = false ↔
      extractedFieldCount (processWorksheet wb cfg cy) = 0 := by
  by_cases hempty : wb.sheetNames.isEmpty = true
  · have hnames : wb.sheetNames = [] := by
      cases h : wb.sheetNames
      · rfl
      · rw [h] at hempty
        simp at hempty
    have hOh : (["Bilan", "CR", "TFT"].any fun n => wb.sheetNames.contains n) = false := by
      rw [hnames]
      rfl
    have hpw : processWorksheet wb cfg cy =
        .error "TypeError: cannot convert undefined worksheet" := by
      rw [processWorksheet_def, hOh]
      simp only [Bool.false_eq_true, if_false]
      unfold processGeneric
      rw [hnames]
      rfl
    unfold processExcelFile
    rw [if_pos hempty, hpw]
    simp [extractedFieldCount]
  · unfold processExcelFile
    rw [if_neg hempty]
    rcases hpw : processWorksheet wb cfg cy with msg | p
    · simp [extractedFieldCount]
    · obtain ⟨md, w⟩ := p
      simp only []
      by_cases hmd : md.isEmpty = true
      · have : md = [] := by
          cases h : md
          · rfl
          · rw [h] at hmd
            simp at hmd
        rw [if_pos hmd]
        simp [extractedFieldCount, this]
      · rw [if_neg hmd]
        simp only [extractedFieldCount]
        constructor
        · intro hfalse
          simp at hfalse
        · intro hsum
          exfalso
          have hinv := recordsNonempty_processWorksheet hpw
          obtain ⟨r, rest, hr⟩ : ∃ r rest, md = r :: rest := by
            cases h : md
            · rw [h] at hmd
              simp at hmd
            · exact ⟨_, _, rfl⟩
          rw [hr] at hsum
          simp only [List.map_cons, List.sum_cons] at hsum
          have hlen : r.2.data.length = 0 := by omega
          have hdata : r.2.data = [] := List.length_eq_zero.mp hlen
          exact hinv r (hr ▸ List.mem_cons_self _ _) hdata

theorem extractDataFromOhadaTemplate_def (wb : Workbook) (cfg : Option YearConfig)
    (cy : ℤ) :
    extractDataFromOhadaTemplate wb cfg cy =
      (calculateDerivedFields (processSheets wb cfg (ohadaReferenceYear cfg cy)).1,
       (if hasRealData
            (calculateDerivedFields (processSheets wb cfg (ohadaReferenceYear cfg cy)).1) = true then
          (processSheets wb cfg (ohadaReferenceYear cfg cy)).2
        else (processSheets wb cfg (ohadaReferenceYear cfg cy)).2 ++ [templateWarning]) ++
       yearValidationWarnings cfg (ohadaReferenceYear cfg cy)
         (calculateDerivedFields (processSheets wb cfg (ohadaReferenceYear cfg cy)).1)) := rfl

theorem missingSheet_mem_processSheets (wb : Workbook) (cfg : Option YearConfig)
    (ref : ℤ) (s : String) (hs : s = "Bilan" ∨ s = "CR" ∨ s = "TFT")
    (h1 : objGet wb.sheets s = none) :
    missingSheetWarning s ∈ (processSheets wb cfg ref).2 := by
  rcases hs with rfl | rfl | rfl <;>
  · unfold processSheets sheetsToProcess
    rcases hB : objGet wb.sheets "Bilan" with _ | wsB <;>
      rcases hC : objGet wb.sheets "CR" with _ | wsC <;>
        rcases hT : objGet wb.sheets "TFT" with _ | wsT <;>
          simp_all

theorem missingSheet_mem_extractOhada (wb : Workbook) (cfg : Option YearConfig)
    (cy : ℤ) (s : String) (hs : s = "Bilan" ∨ s = "CR" ∨ s = "TFT")
    (h1 : objGet wb.sheets s = none) :
    missingSheetWarning s ∈ (extractDataFromOhadaTemplate wb cfg cy).2 := by
  rw [extractDataFromOhadaTemplate_def]
  apply List.mem_append_left
  split_ifs
  · exact missingSheet_mem_processSheets wb cfg _ s hs h1
  · exact List.mem_append_left _ (missingSheet_mem_processSheets wb cfg _ s hs h1)

theorem processExcelFile_partial_success (wb : Workbook) (cfg : Option YearConfig)
    (cy : ℤ) (s : String) (hs : s = "Bilan" ∨ s = "CR" ∨ s = "TFT")
    (h1 : objGet wb.sheets s = none)
    (h2 : "Bilan" ∈ wb.sheetNames ∨ "CR" ∈ wb.sheetNames ∨ "TFT" ∈ wb.sheetNames)
    (h3 : (extractDataFromOhadaTemplate wb cfg cy).1 ≠ []) :
    (processExcelFile wb cfg cy).success = true ∧
    (processExcelFile wb cfg cy).data = some (extractDataFromOhadaTemplate wb cfg cy).1 ∧
    missingSheetWarning s ∈ ((processExcelFile wb cfg cy).warnings.getD []) := by
  have hmemName : ∃ x ∈ wb.sheetNames, x = "Bilan" ∨ x = "CR" ∨ x = "TFT" := by
    rcases h2 with h2 | h2 | h2
    · exact ⟨"Bilan", h2, Or.inl rfl⟩
    · exact ⟨"CR", h2, Or.inr (Or.inl rfl)⟩
    · exact ⟨"TFT", h2, Or.inr (Or.inr rfl)⟩
  have hOh : (["Bilan", "CR", "TFT"].any fun n => wb.sheetNames.contains n) = true := by
    rw [List.any_eq_true]
    obtain ⟨x, hx, hcase⟩ := hmemName
    rcases hcase with rfl | rfl | rfl
    · exact ⟨"Bilan", by simp, by simpa using hx⟩
    · exact ⟨"CR", by simp, by simpa using hx⟩
    · exact ⟨"TFT", by simp, by simpa using hx⟩
  have hnonempty : wb.sheetNames.isEmpty = false := by
    obtain ⟨x, hx, _⟩ := hmemName
    cases h : wb.sheetNames
    · rw [h] at hx
      simp at hx
    · rfl
  have hdata : (!(extractDataFromOhadaTemplate wb cfg cy).1.isEmpty) = true := by
    cases h : (extractDataFromOhadaTemplate wb cfg cy).1
    · exact absurd h h3
    · rfl
  have hpw : processWorksheet wb cfg cy = .ok (extractDataFromOhadaTemplate wb cfg cy) := by
    rw [processWorksheet_def, if_pos hOh, if_pos hdata]
  have hwmem := missingSheet_mem_extractOhada wb cfg cy s hs h1
  have hwne : (extractDataFromOhadaTemplate wb cfg cy).2.isEmpty = false := by
    cases h : (extractDataFromOhadaTemplate wb cfg cy).2
    · rw [h] at hwmem
      simp at hwmem
    · rfl
  have hdne : ((extractDataFromOhadaTemplate wb cfg cy).1.isEmpty : Bool) = false := by
    cases h : (extractDataFromOhadaTemplate wb cfg cy).1
    · exact absurd h h3
    · rfl
  unfold processExcelFile
  rw [if_neg (by rw [hnonempty]; simp), hpw]
  simp only []
  rw [if_neg (by rw [hdne]; simp)]
  refine ⟨rfl, rfl, ?_⟩
  simp only [hwne, Bool.false_eq_true, if_false, Option.getD_some]
  exact hwmem

/-- Claim C7: processExcelFile returns a failure result exactly when the
worksheet processing extracted zero fields across all sheets and years
(a thrown processing counts as zero fields); and whenever ANY of the
statement sheets the template loop reads (Bilan, CR, TFT) is absent but
the OHADA extraction still produced data from the other sheets, the
result is a success carrying that sheet's missing-sheet warning
alongside the partial data. -/
theorem c7_hard_failure_iff_and_partial :
    (∀ (wb : Workbook) (cfg : Option YearConfig) (cy : ℤ),
      (processExcelFile wb cfg cy).success = false ↔
        extractedFieldCount (processWorksheet wb cfg cy) = 0) ∧
    (∀ (wb : Workbook) (cfg : Option YearConfig) (cy : ℤ) (s : String),
      (s = "Bilan" ∨ s = "CR" ∨ s = "TFT") →
      objGet wb.sheets s = none →
      ("Bilan" ∈ wb.sheetNames ∨ "CR" ∈ wb.sheetNames ∨ "TFT" ∈ wb.sheetNames) →
      (extractDataFromOhadaTemplate wb cfg cy).1 ≠ [] →
      (processExcelFile wb cfg cy).success = true ∧
      (processExcelFile wb cfg cy).data =
        some (extractDataFromOhadaTemplate wb cfg cy).1 ∧
      missingSheetWarning s ∈ ((processExcelFile wb cfg cy).warnings.getD [])) :=
  ⟨processExcelFile_failure_iff, processExcelFile_partial_success⟩

/-- Claim C7 witness: the partial-success half applied to the concrete
workbook whose only sheet is a CR sheet with one revenue cell, taking the
absent sheet to be TFT (Bilan is absent there too and works the same
way). -/
theorem c7_hard_failure_iff_and_partial_witness :
    (processExcelFile wbMissingBilan none 2024).success = true ∧
    (processExcelFile wbMissingBilan none 2024).data =
      some (extractDataFromOhadaTemplate wbMissingBilan none 2024).1 ∧
    missingSheetWarning "TFT" ∈
      ((processExcelFile wbMissingBilan none 2024).warnings.getD []) :=
  c7_hard_failure_iff_and_partial.2 wbMissingBilan none 2024 "TFT"
    (by decide) (by decide) (by decide) (by decide)
